import Mathlib

/-!
Verification of the Ironwood view-extraction core: a shallow embedding of
`src/extraction.rs` (the `ViewRegistry` with its type-erased extraction and
conversion closures), `src/backends/mock.rs` (the `MockBackend` static
extractors, composite blanket implementations and the dynamic-child
conversion layer) and `src/elements/layout.rs` (the dynamic `VStack`/`HStack`
builder methods).

Modelling conventions:
* Rust `f32` values are modelled by `F32`, a wrapper around the IEEE-754 bit
  pattern (a `Nat`).  The extraction code only ever copies these values, so
  bit-pattern identity is exactly "copied verbatim"; no float arithmetic or
  float comparison occurs anywhere in the modelled code.
* `std::any::TypeId` is modelled by the closed universe `Ty` of type codes
  that can occur in the extraction system, with `Ty.denote` giving the Lean
  type each code stands for.  A boxed `dyn Any` value is `AnyVal`, a
  dependent pair of a code and a value of its denotation; `downcast` checks
  the code, exactly as `Any::downcast_ref` / `Box::downcast` check the
  `TypeId`.  Custom view types never registered with the mock backend are
  represented by the code family `Ty.custom n`.
* `HashMap<TypeId, _>` is modelled by an association list with
  insert-overwrite semantics (`mapInsert` / `mapFind?`); the claims only
  observe the map through lookup, key-membership and size, and on those
  observations the association list agrees with the hash map.
* Fallible Rust code returning `Result<T, ExtractionError>` becomes
  `Except ExtractionError T`.
-/

namespace Ironwood

/-- Model of Rust `f32`: the 32-bit pattern of the value.  Extraction only
copies these values, never computes with them. -/
structure F32 where
  bits : Nat
deriving DecidableEq, Repr

/-- Bit pattern of `0.0f32`. -/
def F32.zero : F32 := ⟨0⟩

/-- Bit pattern of `1.0f32`. -/
def F32.one : F32 := ⟨0x3F800000⟩

/-- Bit pattern of `16.0f32`. -/
def F32.sixteen : F32 := ⟨0x41800000⟩

/-- Model of `style::Color` (`src/style.rs`): four `f32` channels. -/
structure Color where
  r : F32
  g : F32
  b : F32
  a : F32
deriving DecidableEq, Repr

/-- `Color::rgba` from `src/style.rs`. -/
def Color.rgba (r g b a : F32) : Color := ⟨r, g, b, a⟩

/-- `Color::rgb` from `src/style.rs`: alpha is `1.0`. -/
def Color.rgb (r g b : F32) : Color := Color.rgba r g b F32.one

/-- `Color::BLACK`. -/
def Color.BLACK : Color := Color.rgb F32.zero F32.zero F32.zero

/-- Model of `style::TextStyle` (`src/style.rs`). -/
structure TextStyle where
  color : Color
  font_size : F32
deriving DecidableEq, Repr

/-- Default `TextStyle`: 16px black text. -/
def TextStyle.default : TextStyle := ⟨Color.BLACK, F32.sixteen⟩

/-- Model of `interaction::InteractionState`, a `u8` bitflags value; the
extraction code only copies it. -/
structure InteractionState where
  bits : Nat
deriving DecidableEq, Repr

/-- Model of `elements::text::Text`. -/
structure Text where
  content : String
  style : TextStyle
deriving DecidableEq, Repr

/-- `Text::new`: the given content with default styling. -/
def Text.new (content : String) : Text := ⟨content, TextStyle.default⟩

/-- Model of `widgets::button::ButtonView`. -/
structure ButtonView where
  text : Text
  background_color : Color
  interaction_state : InteractionState
deriving DecidableEq, Repr

/-- Model of `elements::layout::Spacer`. -/
structure Spacer where
  min_size : F32
deriving DecidableEq, Repr

/-- Model of `elements::layout::Alignment`. -/
inductive Alignment where
  | Leading
  | Center
  | Trailing
deriving DecidableEq, Repr

/-- Model of the generic container `elements::layout::VStack<T>`. -/
structure VStack (T : Type) where
  content : T
  alignment : Alignment
  spacing : F32

/-- Model of the generic container `elements::layout::HStack<T>`. -/
structure HStack (T : Type) where
  content : T
  alignment : Alignment
  spacing : F32

/-- Model of `backends::mock::MockText`. -/
structure MockText where
  content : String
  font_size : F32
  color : Color
deriving DecidableEq, Repr

/-- Model of `backends::mock::MockButton`. -/
structure MockButton where
  text : String
  background_color : Color
  text_style : TextStyle
  interaction_state : InteractionState
deriving DecidableEq, Repr

/-- Model of `backends::mock::MockSpacer`. -/
structure MockSpacer where
  min_size : F32
deriving DecidableEq, Repr

/-- Model of `backends::mock::MockVStack<T>`. -/
structure MockVStack (T : Type) where
  content : T
  alignment : Alignment
  spacing : F32

/-- Model of `backends::mock::MockHStack<T>`. -/
structure MockHStack (T : Type) where
  content : T
  alignment : Alignment
  spacing : F32

/-- Model of `backends::mock::MockDynamicChild`, the closed sum type all
dynamic converters target.  The stack variants carry
`MockVStack<Vec<MockDynamicChild>>` / `MockHStack<Vec<MockDynamicChild>>`. -/
inductive MockDynamicChild where
  | text (v : MockText)
  | button (v : MockButton)
  | spacer (v : MockSpacer)
  | vstack (v : MockVStack (List MockDynamicChild))
  | hstack (v : MockHStack (List MockDynamicChild))

/-- A boxed `dyn View` value: one constructor per concrete Rust type that
implements `View` and participates in dynamic extraction.  The stack
variants carry `VStack<Vec<Box<dyn View>>>` / `HStack<Vec<Box<dyn View>>>`;
`custom id` stands for an application-defined view type (with `TypeId`
`Ty.custom id`) never registered with the mock backend. -/
inductive DynView where
  | text (v : Text)
  | button (v : ButtonView)
  | spacer (v : Spacer)
  | vstack (v : VStack (List DynView))
  | hstack (v : HStack (List DynView))
  | custom (id : Nat)

/-- Model of `std::any::TypeId`: the closed universe of type codes occurring
in the extraction system (view types, mock output types, and the family of
custom application view types). -/
inductive Ty where
  | text
  | button
  | spacer
  | vstackDyn
  | hstackDyn
  | mockText
  | mockButton
  | mockSpacer
  | mockVStackDyn
  | mockHStackDyn
  | mockDynamicChild
  | custom (id : Nat)
deriving DecidableEq, Repr

/-- The Lean type denoted by each type code. -/
def Ty.denote : Ty → Type
  | .text => Text
  | .button => ButtonView
  | .spacer => Spacer
  | .vstackDyn => VStack (List DynView)
  | .hstackDyn => HStack (List DynView)
  | .mockText => MockText
  | .mockButton => MockButton
  | .mockSpacer => MockSpacer
  | .mockVStackDyn => MockVStack (List MockDynamicChild)
  | .mockHStackDyn => MockHStack (List MockDynamicChild)
  | .mockDynamicChild => MockDynamicChild
  | .custom _ => Unit

/-- Model of `std::any::type_name`: the human-readable name attached to a
type code (carried inside error values). -/
def Ty.name : Ty → String
  | .text => "ironwood::elements::text::Text"
  | .button => "ironwood::widgets::button::ButtonView"
  | .spacer => "ironwood::elements::layout::Spacer"
  | .vstackDyn => "ironwood::elements::layout::VStack<alloc::vec::Vec<alloc::boxed::Box<dyn ironwood::view::View>>>"
  | .hstackDyn => "ironwood::elements::layout::HStack<alloc::vec::Vec<alloc::boxed::Box<dyn ironwood::view::View>>>"
  | .mockText => "ironwood::backends::mock::MockText"
  | .mockButton => "ironwood::backends::mock::MockButton"
  | .mockSpacer => "ironwood::backends::mock::MockSpacer"
  | .mockVStackDyn => "ironwood::backends::mock::MockVStack<alloc::vec::Vec<ironwood::backends::mock::MockDynamicChild>>"
  | .mockHStackDyn => "ironwood::backends::mock::MockHStack<alloc::vec::Vec<ironwood::backends::mock::MockDynamicChild>>"
  | .mockDynamicChild => "ironwood::backends::mock::MockDynamicChild"
  | .custom _ => "custom view type"

/-- A boxed `dyn Any` value: a type code together with a value of its
denotation. -/
structure AnyVal where
  ty : Ty
  val : ty.denote

/-- Model of `Any::downcast_ref::<T>` / `Box::<dyn Any>::downcast::<T>`:
succeeds exactly when the stored type code is `t`. -/
def AnyVal.downcast (a : AnyVal) (t : Ty) : Option t.denote :=
  if h : a.ty = t then some (cast (congrArg Ty.denote h) a.val) else none

/-- The runtime `TypeId` of a `dyn View` value (`view.type_id()`). -/
def DynView.typeId : DynView → Ty
  | .text _ => .text
  | .button _ => .button
  | .spacer _ => .spacer
  | .vstack _ => .vstackDyn
  | .hstack _ => .hstackDyn
  | .custom id => .custom id

/-- Model of `View::as_any`: every `View` implementation in the repository
returns a reference to itself, so the boxed `Any` carries the view's own
type code and payload. -/
def DynView.as_any : DynView → AnyVal
  | .text v => ⟨.text, v⟩
  | .button v => ⟨.button, v⟩
  | .spacer v => ⟨.spacer, v⟩
  | .vstack v => ⟨.vstackDyn, v⟩
  | .hstack v => ⟨.hstackDyn, v⟩
  | .custom id => ⟨.custom id, ()⟩

/-- The payload a `dyn View` value boxes at its own type code: the concrete
view value behind the trait object. -/
def DynView.payload : (v : DynView) → (v.typeId).denote
  | .text v => v
  | .button v => v
  | .spacer v => v
  | .vstack v => v
  | .hstack v => v
  | .custom _ => ()

/-- Model of `extraction::ExtractionError`. -/
inductive ExtractionError where
  | unregisteredType (type_name : String) (type_id : Ty)
  | downcastFailed (expected_type : String) (actual_type_id : Ty)
  | outputDowncastFailed (expected_type : String)
deriving DecidableEq, Repr

/-- `extraction::ExtractionResult<T>`. -/
abbrev ExtractionResult (T : Type) := Except ExtractionError T

/-- Model of `extraction::RenderContext` (currently a placeholder). -/
structure RenderContext where
  placeholder : Unit

/-- `RenderContext::new`. -/
def RenderContext.new : RenderContext := ⟨()⟩

/-- Association-list insert with overwrite: the model of
`HashMap::insert` as observed through lookup and size. -/
def mapInsert {α : Type} (k : Ty) (v : α) : List (Ty × α) → List (Ty × α)
  | [] => [(k, v)]
  | (k', v') :: rest => if k = k' then (k, v) :: rest else (k', v') :: mapInsert k v rest

/-- Association-list lookup: the model of `HashMap::get` /
`HashMap::contains_key`. -/
def mapFind? {α : Type} (k : Ty) : List (Ty × α) → Option α
  | [] => none
  | (k', v') :: rest => if k = k' then some v' else mapFind? k rest

/-- Model of `extraction::ViewRegistry`: two maps from type id to
type-erased closures, as in `src/extraction.rs` lines 201-220. -/
structure ViewRegistry where
  extractors : List (Ty × (AnyVal → RenderContext → ExtractionResult AnyVal))
  converters : List (Ty × (AnyVal → ExtractionResult AnyVal))

/-- `ViewRegistry::new`: both maps start empty. -/
def ViewRegistry.new : ViewRegistry := ⟨[], []⟩

/-- The type-erased extraction closure built by `ViewRegistry::register`
(`src/extraction.rs` lines 272-288): downcast the view to `V` (failing with
`DowncastFailed` carrying `type_name::<V>()` and the actual type id), call
the backend's static `extract`, and box the output. -/
def registerClosure (V Out : Ty)
    (ex : V.denote → RenderContext → ExtractionResult Out.denote) :
    AnyVal → RenderContext → ExtractionResult AnyVal :=
  fun a ctx =>
    match a.downcast V with
    | none => .error (.downcastFailed V.name a.ty)
    | some v =>
      match ex v ctx with
      | .error e => .error e
      | .ok out => .ok ⟨Out, out⟩

/-- `ViewRegistry::register::<V, B>` where the static impl
`B : ViewExtractor<V>` has output type `Out` and extraction function `ex`:
stores the type-erased closure under `TypeId::of::<V>()`, overwriting any
prior entry. -/
def ViewRegistry.register (r : ViewRegistry) (V Out : Ty)
    (ex : V.denote → RenderContext → ExtractionResult Out.denote) : ViewRegistry :=
  { r with extractors := mapInsert V (registerClosure V Out ex) r.extractors }

/-- The type-erased conversion closure built by
`ViewRegistry::register_converter` (`src/extraction.rs` lines 326-341):
downcast the boxed output to `E` (failing with `OutputDowncastFailed`
carrying `type_name::<E>()`), apply the conversion function, and box the
result as `C`. -/
def converterClosure (E C : Ty) (f : E.denote → C.denote) :
    AnyVal → ExtractionResult AnyVal :=
  fun a =>
    match a.downcast E with
    | none => .error (.outputDowncastFailed E.name)
    | some e => .ok ⟨C, f e⟩

/-- `ViewRegistry::register_converter::<V, E, C, F>`: stores the type-erased
conversion closure under `TypeId::of::<V>()`. -/
def ViewRegistry.register_converter (r : ViewRegistry) (V E C : Ty)
    (f : E.denote → C.denote) : ViewRegistry :=
  { r with converters := mapInsert V (converterClosure E C f) r.converters }

/-- `ViewRegistry::is_registered::<V>`: key membership in `extractors`. -/
def ViewRegistry.is_registered (r : ViewRegistry) (V : Ty) : Bool :=
  (mapFind? V r.extractors).isSome

/-- `ViewRegistry::len`: number of registered view types. -/
def ViewRegistry.len (r : ViewRegistry) : Nat :=
  r.extractors.length

/-- `ViewRegistry::is_empty`. -/
def ViewRegistry.is_empty (r : ViewRegistry) : Bool :=
  r.extractors.isEmpty

/-- The string `std::any::type_name_of_val(view)` produces for a
`view: &dyn View`: the generic parameter is the trait object type itself,
so every unregistered view reports the same constant name. -/
def dynViewTraitObjectName : String := "dyn ironwood::view::View"

/-- `ViewRegistry::extract_dynamic` (`src/extraction.rs` lines 394-414):
look up the view's runtime type id; if absent fail with `UnregisteredType`
(carrying `type_name_of_val(view)` — the trait-object name — and the id),
otherwise invoke the stored closure on `view.as_any()` and the context. -/
def ViewRegistry.extract_dynamic (r : ViewRegistry) (view : DynView)
    (ctx : RenderContext) : ExtractionResult AnyVal :=
  match mapFind? view.typeId r.extractors with
  | none => .error (.unregisteredType dynViewTraitObjectName view.typeId)
  | some ex => ex view.as_any ctx

/-- `ViewRegistry::extract_and_convert` (`src/extraction.rs` lines 443-462):
first `extract_dynamic`, then apply the converter registered for the view's
type id if there is one, otherwise pass the extracted output through. -/
def ViewRegistry.extract_and_convert (r : ViewRegistry) (view : DynView)
    (ctx : RenderContext) : ExtractionResult AnyVal :=
  match r.extract_dynamic view ctx with
  | .error e => .error e
  | .ok extracted =>
    match mapFind? view.typeId r.converters with
    | some conv => conv extracted
    | none => .ok extracted

/-- Static extractor `impl ViewExtractor<Text> for MockBackend`
(`src/backends/mock.rs` lines 167-179). -/
def MockBackend.extractText (view : Text) (_ctx : RenderContext) :
    ExtractionResult MockText :=
  .ok ⟨view.content, view.style.font_size, view.style.color⟩

/-- Static extractor `impl ViewExtractor<ButtonView> for MockBackend`
(`src/backends/mock.rs` lines 198-210). -/
def MockBackend.extractButton (view : ButtonView) (_ctx : RenderContext) :
    ExtractionResult MockButton :=
  .ok ⟨view.text.content, view.background_color, view.text.style, view.interaction_state⟩

/-- Static extractor `impl ViewExtractor<Spacer> for MockBackend`
(`src/backends/mock.rs` lines 221-229). -/
def MockBackend.extractSpacer (view : Spacer) (_ctx : RenderContext) :
    ExtractionResult MockSpacer :=
  .ok ⟨view.min_size⟩

mutual

/-- The dynamic extraction of a single boxed view by the mock backend
(`MockBackend::extract_dynamic`), written as a structural recursion.  Each
branch is the computed result of the registry dispatch installed by
`MockBackend::new`: lookup of the type id, downcast, static extraction,
conversion into `MockDynamicChild`, and final output downcast; the theorem
`mockBackend_extract_dynamic_spec` below proves this function equal to the
registry-based definition. -/
def mockExtractDynamic : DynView → RenderContext → ExtractionResult MockDynamicChild
  | .text v, ctx =>
    match MockBackend.extractText v ctx with
    | .error e => .error e
    | .ok m => .ok (.text m)
  | .button v, ctx =>
    match MockBackend.extractButton v ctx with
    | .error e => .error e
    | .ok m => .ok (.button m)
  | .spacer v, ctx =>
    match MockBackend.extractSpacer v ctx with
    | .error e => .error e
    | .ok m => .ok (.spacer m)
  | .vstack ⟨content, align, sp⟩, ctx =>
    match mockExtractListD content ctx with
    | .error e => .error e
    | .ok cs => .ok (.vstack ⟨cs, align, sp⟩)
  | .hstack ⟨content, align, sp⟩, ctx =>
    match mockExtractListD content ctx with
    | .error e => .error e
    | .ok cs => .ok (.hstack ⟨cs, align, sp⟩)
  | .custom id, _ =>
    .error (.unregisteredType dynViewTraitObjectName (Ty.custom id))

/-- Dynamic extraction of a child list, the model of
`view.content.iter().map(|child| backend.extract_dynamic(child, ctx)).collect::<Result<Vec<_>, _>>()`
in the dynamic `VStack`/`HStack` extractors: fail fast on the first child
error, otherwise collect the outputs in order. -/
def mockExtractListD : List DynView → RenderContext → ExtractionResult (List MockDynamicChild)
  | [], _ => .ok []
  | c :: rest, ctx =>
    match mockExtractDynamic c ctx with
    | .error e => .error e
    | .ok o =>
      match mockExtractListD rest ctx with
      | .error e => .error e
      | .ok os => .ok (o :: os)

end

/-- Static extractor `impl ViewExtractor<VStack<Vec<Box<dyn View>>>> for
MockBackend` (`src/backends/mock.rs` lines 739-764): extract each child
dynamically through a freshly constructed backend, collect the results, and
copy alignment and spacing verbatim. -/
def MockBackend.extractVStackDyn (view : VStack (List DynView)) (ctx : RenderContext) :
    ExtractionResult (MockVStack (List MockDynamicChild)) :=
  match mockExtractListD view.content ctx with
  | .error e => .error e
  | .ok cs => .ok ⟨cs, view.alignment, view.spacing⟩

/-- Static extractor `impl ViewExtractor<HStack<Vec<Box<dyn View>>>> for
MockBackend` (`src/backends/mock.rs` lines 795-820). -/
def MockBackend.extractHStackDyn (view : HStack (List DynView)) (ctx : RenderContext) :
    ExtractionResult (MockHStack (List MockDynamicChild)) :=
  match mockExtractListD view.content ctx with
  | .error e => .error e
  | .ok cs => .ok ⟨cs, view.alignment, view.spacing⟩

/-- The registry populated by `MockBackend::new` (`src/backends/mock.rs`
lines 85-125): five extractor registrations followed by five converter
registrations, each converter wrapping the raw output in the matching
`MockDynamicChild` variant. -/
def mockRegistry : ViewRegistry :=
  ((((((((((ViewRegistry.new.register
    .text .mockText MockBackend.extractText).register
    .button .mockButton MockBackend.extractButton).register
    .spacer .mockSpacer MockBackend.extractSpacer).register
    .vstackDyn .mockVStackDyn MockBackend.extractVStackDyn).register
    .hstackDyn .mockHStackDyn MockBackend.extractHStackDyn).register_converter
    .text .mockText .mockDynamicChild MockDynamicChild.text).register_converter
    .button .mockButton .mockDynamicChild MockDynamicChild.button).register_converter
    .spacer .mockSpacer .mockDynamicChild MockDynamicChild.spacer).register_converter
    .vstackDyn .mockVStackDyn .mockDynamicChild MockDynamicChild.vstack).register_converter
    .hstackDyn .mockHStackDyn .mockDynamicChild MockDynamicChild.hstack)

/-- `MockBackend::extract_dynamic` (`src/backends/mock.rs` lines 142-158):
run the registry's `extract_and_convert` and downcast the boxed output to
`MockDynamicChild`, failing with `OutputDowncastFailed` otherwise. -/
def MockBackend.extract_dynamic (view : DynView) (ctx : RenderContext) :
    ExtractionResult MockDynamicChild :=
  match mockRegistry.extract_and_convert view ctx with
  | .error e => .error e
  | .ok converted =>
    match converted.downcast .mockDynamicChild with
    | none => .error (.outputDowncastFailed Ty.mockDynamicChild.name)
    | some c => .ok c

/-- `VStack::<Vec<Box<dyn View>>>::dynamic` (`src/elements/layout.rs` lines
334-340): empty content, leading alignment, zero spacing. -/
def VStack.dynamic : VStack (List DynView) :=
  ⟨[], .Leading, F32.zero⟩

/-- `VStack::<Vec<Box<dyn View>>>::children` (lines 358-361): replaces the
entire child list. -/
def VStack.children (s : VStack (List DynView)) (cs : List DynView) :
    VStack (List DynView) :=
  { s with content := cs }

/-- `VStack::<Vec<Box<dyn View>>>::child` (lines 379-382): pushes one child
at the end. -/
def VStack.child (s : VStack (List DynView)) (c : DynView) :
    VStack (List DynView) :=
  { s with content := s.content ++ [c] }

/-- `VStack::<Vec<Box<dyn View>>>::conditional_children` (lines 403-408):
extends the child list when the condition holds, otherwise returns the
stack unchanged. -/
def VStack.conditional_children (s : VStack (List DynView)) (condition : Bool)
    (cs : List DynView) : VStack (List DynView) :=
  if condition then { s with content := s.content ++ cs } else s

/-- `VStack::<Vec<Box<dyn View>>>::from_children` (lines 427-432). -/
def VStack.from_children (cs : List DynView) : VStack (List DynView) :=
  VStack.dynamic.children cs

/-- `HStack::<Vec<Box<dyn View>>>::dynamic` (`src/elements/layout.rs` lines
458-464). -/
def HStack.dynamic : HStack (List DynView) :=
  ⟨[], .Leading, F32.zero⟩

/-- `HStack::<Vec<Box<dyn View>>>::children` (lines 484-487). -/
def HStack.children (s : HStack (List DynView)) (cs : List DynView) :
    HStack (List DynView) :=
  { s with content := cs }

/-- `HStack::<Vec<Box<dyn View>>>::child` (lines 507-510). -/
def HStack.child (s : HStack (List DynView)) (c : DynView) :
    HStack (List DynView) :=
  { s with content := s.content ++ [c] }

/-- `HStack::<Vec<Box<dyn View>>>::conditional_children` (lines 534-539). -/
def HStack.conditional_children (s : HStack (List DynView)) (condition : Bool)
    (cs : List DynView) : HStack (List DynView) :=
  if condition then { s with content := s.content ++ cs } else s

/-- `HStack::<Vec<Box<dyn View>>>::from_children` (lines 559-564). -/
def HStack.from_children (cs : List DynView) : HStack (List DynView) :=
  HStack.dynamic.children cs

/-- Composite blanket impl `ViewExtractor<Option<V>> for MockBackend`
(`src/backends/mock.rs` lines 232-244), generic over the inner extractor:
`view.as_ref().map(|inner| Self::extract(inner, context)).transpose()`. -/
def MockBackend.extractOption {A O : Type}
    (e : A → RenderContext → ExtractionResult O)
    (view : Option A) (ctx : RenderContext) : ExtractionResult (Option O) :=
  match view with
  | none => .ok none
  | some inner =>
    match e inner ctx with
    | .error err => .error err
    | .ok o => .ok (some o)

/-- Composite blanket impl for 2-tuples (`src/backends/mock.rs` lines
248-265), generic over the per-component extractors; the `?` operator's
fail-fast propagation becomes monadic bind. -/
def MockBackend.extractTuple2 {A1 A2 O1 O2 : Type}
    (e1 : A1 → RenderContext → ExtractionResult O1)
    (e2 : A2 → RenderContext → ExtractionResult O2)
    (view : A1 × A2) (ctx : RenderContext) : ExtractionResult (O1 × O2) := do
  match view with
  | (v1, v2) => do
    let o1 ← e1 v1 ctx
    let o2 ← e2 v2 ctx
    return (o1, o2)

/-- Composite blanket impl for 3-tuples (`src/backends/mock.rs` lines 267-287). -/
def MockBackend.extractTuple3 {A1 A2 A3 O1 O2 O3 : Type}
    (e1 : A1 → RenderContext → ExtractionResult O1)
    (e2 : A2 → RenderContext → ExtractionResult O2)
    (e3 : A3 → RenderContext → ExtractionResult O3)
    (view : A1 × A2 × A3) (ctx : RenderContext) : ExtractionResult (O1 × O2 × O3) := do
  match view with
  | (v1, v2, v3) => do
    let o1 ← e1 v1 ctx
    let o2 ← e2 v2 ctx
    let o3 ← e3 v3 ctx
    return (o1, o2, o3)

/-- Composite blanket impl for 4-tuples (`src/backends/mock.rs` lines 289-312). -/
def MockBackend.extractTuple4 {A1 A2 A3 A4 O1 O2 O3 O4 : Type}
    (e1 : A1 → RenderContext → ExtractionResult O1)
    (e2 : A2 → RenderContext → ExtractionResult O2)
    (e3 : A3 → RenderContext → ExtractionResult O3)
    (e4 : A4 → RenderContext → ExtractionResult O4)
    (view : A1 × A2 × A3 × A4) (ctx : RenderContext) :
    ExtractionResult (O1 × O2 × O3 × O4) := do
  match view with
  | (v1, v2, v3, v4) => do
    let o1 ← e1 v1 ctx
    let o2 ← e2 v2 ctx
    let o3 ← e3 v3 ctx
    let o4 ← e4 v4 ctx
    return (o1, o2, o3, o4)

/-- Composite blanket impl for 5-tuples (`src/backends/mock.rs` lines 314-347). -/
def MockBackend.extractTuple5 {A1 A2 A3 A4 A5 O1 O2 O3 O4 O5 : Type}
    (e1 : A1 → RenderContext → ExtractionResult O1)
    (e2 : A2 → RenderContext → ExtractionResult O2)
    (e3 : A3 → RenderContext → ExtractionResult O3)
    (e4 : A4 → RenderContext → ExtractionResult O4)
    (e5 : A5 → RenderContext → ExtractionResult O5)
    (view : A1 × A2 × A3 × A4 × A5) (ctx : RenderContext) :
    ExtractionResult (O1 × O2 × O3 × O4 × O5) := do
  match view with
  | (v1, v2, v3, v4, v5) => do
    let o1 ← e1 v1 ctx
    let o2 ← e2 v2 ctx
    let o3 ← e3 v3 ctx
    let o4 ← e4 v4 ctx
    let o5 ← e5 v5 ctx
    return (o1, o2, o3, o4, o5)

/-- Composite blanket impl for 6-tuples (`src/backends/mock.rs` lines 349-386). -/
def MockBackend.extractTuple6 {A1 A2 A3 A4 A5 A6 O1 O2 O3 O4 O5 O6 : Type}
    (e1 : A1 → RenderContext → ExtractionResult O1)
    (e2 : A2 → RenderContext → ExtractionResult O2)
    (e3 : A3 → RenderContext → ExtractionResult O3)
    (e4 : A4 → RenderContext → ExtractionResult O4)
    (e5 : A5 → RenderContext → ExtractionResult O5)
    (e6 : A6 → RenderContext → ExtractionResult O6)
    (view : A1 × A2 × A3 × A4 × A5 × A6) (ctx : RenderContext) :
    ExtractionResult (O1 × O2 × O3 × O4 × O5 × O6) := do
  match view with
  | (v1, v2, v3, v4, v5, v6) => do
    let o1 ← e1 v1 ctx
    let o2 ← e2 v2 ctx
    let o3 ← e3 v3 ctx
    let o4 ← e4 v4 ctx
    let o5 ← e5 v5 ctx
    let o6 ← e6 v6 ctx
    return (o1, o2, o3, o4, o5, o6)

/-- Composite blanket impl for 7-tuples (`src/backends/mock.rs` lines 388-429). -/
def MockBackend.extractTuple7 {A1 A2 A3 A4 A5 A6 A7 O1 O2 O3 O4 O5 O6 O7 : Type}
    (e1 : A1 → RenderContext → ExtractionResult O1)
    (e2 : A2 → RenderContext → ExtractionResult O2)
    (e3 : A3 → RenderContext → ExtractionResult O3)
    (e4 : A4 → RenderContext → ExtractionResult O4)
    (e5 : A5 → RenderContext → ExtractionResult O5)
    (e6 : A6 → RenderContext → ExtractionResult O6)
    (e7 : A7 → RenderContext → ExtractionResult O7)
    (view : A1 × A2 × A3 × A4 × A5 × A6 × A7) (ctx : RenderContext) :
    ExtractionResult (O1 × O2 × O3 × O4 × O5 × O6 × O7) := do
  match view with
  | (v1, v2, v3, v4, v5, v6, v7) => do
    let o1 ← e1 v1 ctx
    let o2 ← e2 v2 ctx
    let o3 ← e3 v3 ctx
    let o4 ← e4 v4 ctx
    let o5 ← e5 v5 ctx
    let o6 ← e6 v6 ctx
    let o7 ← e7 v7 ctx
    return (o1, o2, o3, o4, o5, o6, o7)

/-- Composite blanket impl for 8-tuples (`src/backends/mock.rs` lines 431-476). -/
def MockBackend.extractTuple8 {A1 A2 A3 A4 A5 A6 A7 A8 O1 O2 O3 O4 O5 O6 O7 O8 : Type}
    (e1 : A1 → RenderContext → ExtractionResult O1)
    (e2 : A2 → RenderContext → ExtractionResult O2)
    (e3 : A3 → RenderContext → ExtractionResult O3)
    (e4 : A4 → RenderContext → ExtractionResult O4)
    (e5 : A5 → RenderContext → ExtractionResult O5)
    (e6 : A6 → RenderContext → ExtractionResult O6)
    (e7 : A7 → RenderContext → ExtractionResult O7)
    (e8 : A8 → RenderContext → ExtractionResult O8)
    (view : A1 × A2 × A3 × A4 × A5 × A6 × A7 × A8) (ctx : RenderContext) :
    ExtractionResult (O1 × O2 × O3 × O4 × O5 × O6 × O7 × O8) := do
  match view with
  | (v1, v2, v3, v4, v5, v6, v7, v8) => do
    let o1 ← e1 v1 ctx
    let o2 ← e2 v2 ctx
    let o3 ← e3 v3 ctx
    let o4 ← e4 v4 ctx
    let o5 ← e5 v5 ctx
    let o6 ← e6 v6 ctx
    let o7 ← e7 v7 ctx
    let o8 ← e8 v8 ctx
    return (o1, o2, o3, o4, o5, o6, o7, o8)

/-- Composite blanket impl for 9-tuples (`src/backends/mock.rs` lines 478-528). -/
def MockBackend.extractTuple9 {A1 A2 A3 A4 A5 A6 A7 A8 A9 O1 O2 O3 O4 O5 O6 O7 O8 O9 : Type}
    (e1 : A1 → RenderContext → ExtractionResult O1)
    (e2 : A2 → RenderContext → ExtractionResult O2)
    (e3 : A3 → RenderContext → ExtractionResult O3)
    (e4 : A4 → RenderContext → ExtractionResult O4)
    (e5 : A5 → RenderContext → ExtractionResult O5)
    (e6 : A6 → RenderContext → ExtractionResult O6)
    (e7 : A7 → RenderContext → ExtractionResult O7)
    (e8 : A8 → RenderContext → ExtractionResult O8)
    (e9 : A9 → RenderContext → ExtractionResult O9)
    (view : A1 × A2 × A3 × A4 × A5 × A6 × A7 × A8 × A9) (ctx : RenderContext) :
    ExtractionResult (O1 × O2 × O3 × O4 × O5 × O6 × O7 × O8 × O9) := do
  match view with
  | (v1, v2, v3, v4, v5, v6, v7, v8, v9) => do
    let o1 ← e1 v1 ctx
    let o2 ← e2 v2 ctx
    let o3 ← e3 v3 ctx
    let o4 ← e4 v4 ctx
    let o5 ← e5 v5 ctx
    let o6 ← e6 v6 ctx
    let o7 ← e7 v7 ctx
    let o8 ← e8 v8 ctx
    let o9 ← e9 v9 ctx
    return (o1, o2, o3, o4, o5, o6, o7, o8, o9)

/-- Composite blanket impl for 10-tuples (`src/backends/mock.rs` lines 530-584). -/
def MockBackend.extractTuple10
    {A1 A2 A3 A4 A5 A6 A7 A8 A9 A10 O1 O2 O3 O4 O5 O6 O7 O8 O9 O10 : Type}
    (e1 : A1 → RenderContext → ExtractionResult O1)
    (e2 : A2 → RenderContext → ExtractionResult O2)
    (e3 : A3 → RenderContext → ExtractionResult O3)
    (e4 : A4 → RenderContext → ExtractionResult O4)
    (e5 : A5 → RenderContext → ExtractionResult O5)
    (e6 : A6 → RenderContext → ExtractionResult O6)
    (e7 : A7 → RenderContext → ExtractionResult O7)
    (e8 : A8 → RenderContext → ExtractionResult O8)
    (e9 : A9 → RenderContext → ExtractionResult O9)
    (e10 : A10 → RenderContext → ExtractionResult O10)
    (view : A1 × A2 × A3 × A4 × A5 × A6 × A7 × A8 × A9 × A10) (ctx : RenderContext) :
    ExtractionResult (O1 × O2 × O3 × O4 × O5 × O6 × O7 × O8 × O9 × O10) := do
  match view with
  | (v1, v2, v3, v4, v5, v6, v7, v8, v9, v10) => do
    let o1 ← e1 v1 ctx
    let o2 ← e2 v2 ctx
    let o3 ← e3 v3 ctx
    let o4 ← e4 v4 ctx
    let o5 ← e5 v5 ctx
    let o6 ← e6 v6 ctx
    let o7 ← e7 v7 ctx
    let o8 ← e8 v8 ctx
    let o9 ← e9 v9 ctx
    let o10 ← e10 v10 ctx
    return (o1, o2, o3, o4, o5, o6, o7, o8, o9, o10)

/-- Composite blanket impl for 11-tuples (`src/backends/mock.rs` lines 586-644). -/
def MockBackend.extractTuple11
    {A1 A2 A3 A4 A5 A6 A7 A8 A9 A10 A11 O1 O2 O3 O4 O5 O6 O7 O8 O9 O10 O11 : Type}
    (e1 : A1 → RenderContext → ExtractionResult O1)
    (e2 : A2 → RenderContext → ExtractionResult O2)
    (e3 : A3 → RenderContext → ExtractionResult O3)
    (e4 : A4 → RenderContext → ExtractionResult O4)
    (e5 : A5 → RenderContext → ExtractionResult O5)
    (e6 : A6 → RenderContext → ExtractionResult O6)
    (e7 : A7 → RenderContext → ExtractionResult O7)
    (e8 : A8 → RenderContext → ExtractionResult O8)
    (e9 : A9 → RenderContext → ExtractionResult O9)
    (e10 : A10 → RenderContext → ExtractionResult O10)
    (e11 : A11 → RenderContext → ExtractionResult O11)
    (view : A1 × A2 × A3 × A4 × A5 × A6 × A7 × A8 × A9 × A10 × A11) (ctx : RenderContext) :
    ExtractionResult (O1 × O2 × O3 × O4 × O5 × O6 × O7 × O8 × O9 × O10 × O11) := do
  match view with
  | (v1, v2, v3, v4, v5, v6, v7, v8, v9, v10, v11) => do
    let o1 ← e1 v1 ctx
    let o2 ← e2 v2 ctx
    let o3 ← e3 v3 ctx
    let o4 ← e4 v4 ctx
    let o5 ← e5 v5 ctx
    let o6 ← e6 v6 ctx
    let o7 ← e7 v7 ctx
    let o8 ← e8 v8 ctx
    let o9 ← e9 v9 ctx
    let o10 ← e10 v10 ctx
    let o11 ← e11 v11 ctx
    return (o1, o2, o3, o4, o5, o6, o7, o8, o9, o10, o11)

/-- Composite blanket impl for 12-tuples (`src/backends/mock.rs` lines 646-708). -/
def MockBackend.extractTuple12
    {A1 A2 A3 A4 A5 A6 A7 A8 A9 A10 A11 A12 O1 O2 O3 O4 O5 O6 O7 O8 O9 O10 O11 O12 : Type}
    (e1 : A1 → RenderContext → ExtractionResult O1)
    (e2 : A2 → RenderContext → ExtractionResult O2)
    (e3 : A3 → RenderContext → ExtractionResult O3)
    (e4 : A4 → RenderContext → ExtractionResult O4)
    (e5 : A5 → RenderContext → ExtractionResult O5)
    (e6 : A6 → RenderContext → ExtractionResult O6)
    (e7 : A7 → RenderContext → ExtractionResult O7)
    (e8 : A8 → RenderContext → ExtractionResult O8)
    (e9 : A9 → RenderContext → ExtractionResult O9)
    (e10 : A10 → RenderContext → ExtractionResult O10)
    (e11 : A11 → RenderContext → ExtractionResult O11)
    (e12 : A12 → RenderContext → ExtractionResult O12)
    (view : A1 × A2 × A3 × A4 × A5 × A6 × A7 × A8 × A9 × A10 × A11 × A12)
    (ctx : RenderContext) :
    ExtractionResult (O1 × O2 × O3 × O4 × O5 × O6 × O7 × O8 × O9 × O10 × O11 × O12) := do
  match view with
  | (v1, v2, v3, v4, v5, v6, v7, v8, v9, v10, v11, v12) => do
    let o1 ← e1 v1 ctx
    let o2 ← e2 v2 ctx
    let o3 ← e3 v3 ctx
    let o4 ← e4 v4 ctx
    let o5 ← e5 v5 ctx
    let o6 ← e6 v6 ctx
    let o7 ← e7 v7 ctx
    let o8 ← e8 v8 ctx
    let o9 ← e9 v9 ctx
    let o10 ← e10 v10 ctx
    let o11 ← e11 v11 ctx
    let o12 ← e12 v12 ctx
    return (o1, o2, o3, o4, o5, o6, o7, o8, o9, o10, o11, o12)

/-- Static container extraction `impl<T> ViewExtractor<VStack<T>> for
MockBackend` (`src/backends/mock.rs` lines 722-736), generic over the
content extractor. -/
def MockBackend.extractVStack {T O : Type}
    (e : T → RenderContext → ExtractionResult O)
    (view : VStack T) (ctx : RenderContext) : ExtractionResult (MockVStack O) :=
  match e view.content ctx with
  | .error err => .error err
  | .ok o => .ok ⟨o, view.alignment, view.spacing⟩

/-- Static container extraction `impl<T> ViewExtractor<HStack<T>> for
MockBackend` (`src/backends/mock.rs` lines 778-792). -/
def MockBackend.extractHStack {T O : Type}
    (e : T → RenderContext → ExtractionResult O)
    (view : HStack T) (ctx : RenderContext) : ExtractionResult (MockHStack O) :=
  match e view.content ctx with
  | .error err => .error err
  | .ok o => .ok ⟨o, view.alignment, view.spacing⟩

/-- One registration call against a `ViewRegistry`: either
`register::<V, B>()` (carrying `B`'s output type and static extraction
function for `V`) or `register_converter::<V, E, C, _>(f)`. -/
inductive RegOp where
  | reg (V Out : Ty) (ex : V.denote → RenderContext → ExtractionResult Out.denote)
  | regConv (V E C : Ty) (f : E.denote → C.denote)

/-- Run a sequence of registration calls left to right. -/
def applyOps (r : ViewRegistry) : List RegOp → ViewRegistry
  | [] => r
  | .reg V Out ex :: rest => applyOps (r.register V Out ex) rest
  | .regConv V E C f :: rest => applyOps (r.register_converter V E C f) rest

/-- A registration sequence is ordered when, relative to the set `S` of
type ids already holding an extractor, every converter registration targets
a type id whose extractor was registered earlier. -/
def orderedSeq : List Ty → List RegOp → Prop
  | _, [] => True
  | S, .reg V _ _ :: rest => orderedSeq (V :: S) rest
  | S, .regConv V _ _ _ :: rest => V ∈ S ∧ orderedSeq S rest

/-- An extraction outcome that is `Ok` or an `UnregisteredType` error — the
only outcomes the spec calls reachable under correct registration. -/
def okOrUnreg {α : Type} (x : ExtractionResult α) : Prop :=
  (∃ o, x = .ok o) ∨ (∃ n t, x = .error (.unregisteredType n t))

/-- A correct registration sequence against the evolving registry `r`, the
pattern `MockBackend::new` follows: each `register::<V, B>()` installs a
static extractor whose own outcomes are `Ok` or `UnregisteredType` and runs
before any converter for `V` exists; each
`register_converter::<V, E, C, _>` names a `V` whose current extractor was
installed by `register` with output type `E` (`E` equals `B`'s `Output` for
`V`) and is the first converter for `V` (at most one per type). -/
def correctSeq (r : ViewRegistry) : List RegOp → Prop
  | [] => True
  | .reg V Out ex :: rest =>
      (∀ x ctx, okOrUnreg (ex x ctx)) ∧
      mapFind? V r.converters = none ∧
      correctSeq (r.register V Out ex) rest
  | .regConv V E C f :: rest =>
      (∃ ex, mapFind? V r.extractors = some (registerClosure V E ex) ∧
        ∀ x ctx, okOrUnreg (ex x ctx)) ∧
      mapFind? V r.converters = none ∧
      correctSeq (r.register_converter V E C f) rest

/-- The registry invariant a correct registration sequence establishes:
every extractors entry is a `register`-built closure over a static
extractor with `Ok`-or-`UnregisteredType` outcomes, and any converters
entry for the same type id downcasts at exactly that extractor's output
type. -/
def RegInv (r : ViewRegistry) : Prop :=
  ∀ V g, mapFind? V r.extractors = some g →
    ∃ Out ex, g = registerClosure V Out ex ∧
      (∀ x ctx, okOrUnreg (ex x ctx)) ∧
      ∀ h, mapFind? V r.converters = some h →
        ∃ C f, h = converterClosure Out C f

/-- A call to a static `extract(view: &V, ctx: &RenderContext)` as seen by
the caller: view and context are passed by shared reference, so the caller
still holds the same view and context values after the call; the embedding
returns them alongside the result. -/
def extractCall {V O : Type} (f : V → RenderContext → ExtractionResult O)
    (view : V) (ctx : RenderContext) :
    ExtractionResult O × V × RenderContext :=
  (f view ctx, view, ctx)

theorem mapFind?_mapInsert {α : Type} (k k' : Ty) (v : α) (l : List (Ty × α)) :
    mapFind? k (mapInsert k' v l) = if k = k' then some v else mapFind? k l := by
  induction l with
  | nil => simp [mapInsert, mapFind?]
  | cons hd tl ih =>
    obtain ⟨hk, hv⟩ := hd
    by_cases h1 : k' = hk
    · subst h1
      by_cases h2 : k = k'
      · subst h2
        simp [mapInsert, mapFind?]
      · simp [mapInsert, mapFind?, h2]
    · by_cases h2 : k = hk
      · subst h2
        have h3 : ¬ k = k' := fun h => h1 h.symm
        simp [mapInsert, mapFind?, h1, h3]
      · simp [mapInsert, mapFind?, h1, h2, ih]

theorem length_mapInsert {α : Type} (k : Ty) (v : α) (l : List (Ty × α)) :
    (mapInsert k v l).length =
      if (mapFind? k l).isSome then l.length else l.length + 1 := by
  induction l with
  | nil => simp [mapInsert, mapFind?]
  | cons hd tl ih =>
    obtain ⟨hk, hv⟩ := hd
    by_cases h : k = hk
    · subst h
      simp [mapInsert, mapFind?]
    · simp [mapInsert, mapFind?, h, ih]
      by_cases h2 : (mapFind? k tl).isSome <;> simp [h2]

theorem DynView.asAny_ty (w : DynView) : w.as_any.ty = w.typeId := by
  cases w <;> rfl

theorem mockBackend_extract_dynamic_spec (v : DynView) (ctx : RenderContext) :
    MockBackend.extract_dynamic v ctx = mockExtractDynamic v ctx := by
  cases v with
  | text v => rfl
  | button v => rfl
  | spacer v => rfl
  | vstack v =>
    obtain ⟨content, align, sp⟩ := v
    unfold MockBackend.extract_dynamic ViewRegistry.extract_and_convert
      ViewRegistry.extract_dynamic
    cases h : mockExtractListD content ctx <;>
      simp [mockRegistry, ViewRegistry.register, ViewRegistry.register_converter,
        ViewRegistry.new, mapInsert, mapFind?, DynView.typeId, DynView.as_any,
        registerClosure, converterClosure, AnyVal.downcast,
        MockBackend.extractVStackDyn, h, mockExtractDynamic]
  | hstack v =>
    obtain ⟨content, align, sp⟩ := v
    unfold MockBackend.extract_dynamic ViewRegistry.extract_and_convert
      ViewRegistry.extract_dynamic
    cases h : mockExtractListD content ctx <;>
      simp [mockRegistry, ViewRegistry.register, ViewRegistry.register_converter,
        ViewRegistry.new, mapInsert, mapFind?, DynView.typeId, DynView.as_any,
        registerClosure, converterClosure, AnyVal.downcast,
        MockBackend.extractHStackDyn, h, mockExtractDynamic]
  | custom id => rfl

theorem mockExtractListD_ok_of (ctx : RenderContext) (l : List DynView)
    (h : ∀ c ∈ l, ∃ o, mockExtractDynamic c ctx = .ok o) :
    ∃ os, mockExtractListD l ctx = .ok os ∧ os.length = l.length ∧
      ∀ (i : Nat) (h1 : i < l.length) (h2 : i < os.length),
        mockExtractDynamic (l.get ⟨i, h1⟩) ctx = .ok (os.get ⟨i, h2⟩) := by
  induction l with
  | nil =>
    exact ⟨[], rfl, rfl, fun i h1 h2 => absurd h1 (by simp)⟩
  | cons c rest ih =>
    obtain ⟨o, ho⟩ := h c (List.mem_cons_self c rest)
    obtain ⟨os, hos, hlen, hidx⟩ := ih (fun x hx => h x (List.mem_cons_of_mem c hx))
    refine ⟨o :: os, ?_, by simp [hlen], ?_⟩
    · simp [mockExtractListD, ho, hos]
    · intro i h1 h2
      cases i with
      | zero => simpa using ho
      | succ n => simpa using hidx n (by simpa using h1) (by simpa using h2)

theorem mockExtractListD_error_of (ctx : RenderContext) (pre : List DynView)
    (c : DynView) (post : List DynView) (e : ExtractionError)
    (hpre : ∀ x ∈ pre, ∃ o, mockExtractDynamic x ctx = .ok o)
    (hc : mockExtractDynamic c ctx = .error e) :
    mockExtractListD (pre ++ c :: post) ctx = .error e := by
  induction pre with
  | nil => simp [mockExtractListD, hc]
  | cons p rest ih =>
    obtain ⟨o, ho⟩ := hpre p (List.mem_cons_self p rest)
    have := ih (fun x hx => hpre x (List.mem_cons_of_mem p hx))
    simp [mockExtractListD, ho, this]

theorem mockExtractListD_ok_or_unreg_of (ctx : RenderContext) (l : List DynView)
    (h : ∀ c ∈ l, (∃ o, mockExtractDynamic c ctx = .ok o) ∨
      (∃ n t, mockExtractDynamic c ctx = .error (.unregisteredType n t))) :
    (∃ os, mockExtractListD l ctx = .ok os) ∨
    (∃ n t, mockExtractListD l ctx = .error (.unregisteredType n t)) := by
  induction l with
  | nil => exact Or.inl ⟨[], rfl⟩
  | cons c rest ih =>
    rcases h c (List.mem_cons_self c rest) with ⟨o, ho⟩ | ⟨n, t, he⟩
    · rcases ih (fun x hx => h x (List.mem_cons_of_mem c hx)) with ⟨os, hos⟩ | ⟨n, t, he⟩
      · exact Or.inl ⟨o :: os, by simp [mockExtractListD, ho, hos]⟩
      · exact Or.inr ⟨n, t, by simp [mockExtractListD, ho, he]⟩
    · exact Or.inr ⟨n, t, by simp [mockExtractListD, he]⟩

theorem mockExtractDynamic_ok_or_unreg (v : DynView) (ctx : RenderContext) :
    (∃ c, mockExtractDynamic v ctx = .ok c) ∨
    (∃ n t, mockExtractDynamic v ctx = .error (.unregisteredType n t)) := by
  suffices H : ∀ (n : Nat) (v : DynView), sizeOf v ≤ n → ∀ ctx : RenderContext,
      (∃ c, mockExtractDynamic v ctx = .ok c) ∨
      (∃ nm t, mockExtractDynamic v ctx = .error (.unregisteredType nm t)) from
    H (sizeOf v) v le_rfl ctx
  intro n
  induction n with
  | zero =>
    intro v hv
    exfalso
    cases v <;> simp at hv
  | succ n ih =>
    intro v hv ctx
    cases v with
    | text v => exact Or.inl ⟨_, rfl⟩
    | button v => exact Or.inl ⟨_, rfl⟩
    | spacer v => exact Or.inl ⟨_, rfl⟩
    | custom id => exact Or.inr ⟨_, _, rfl⟩
    | vstack s =>
      obtain ⟨content, align, sp⟩ := s
      have hsz : sizeOf content ≤ n := by
        simp at hv
        omega
      have hall : ∀ c ∈ content,
          (∃ o, mockExtractDynamic c ctx = .ok o) ∨
          (∃ nm t, mockExtractDynamic c ctx = .error (.unregisteredType nm t)) := by
        intro c hc
        exact ih c (le_trans (le_of_lt (List.sizeOf_lt_of_mem hc)) hsz) ctx
      rcases mockExtractListD_ok_or_unreg_of ctx content hall with ⟨os, hos⟩ | ⟨nm, t, he⟩
      · exact Or.inl ⟨.vstack ⟨os, align, sp⟩, by simp [mockExtractDynamic, hos]⟩
      · exact Or.inr ⟨nm, t, by simp [mockExtractDynamic, he]⟩
    | hstack s =>
      obtain ⟨content, align, sp⟩ := s
      have hsz : sizeOf content ≤ n := by
        simp at hv
        omega
      have hall : ∀ c ∈ content,
          (∃ o, mockExtractDynamic c ctx = .ok o) ∨
          (∃ nm t, mockExtractDynamic c ctx = .error (.unregisteredType nm t)) := by
        intro c hc
        exact ih c (le_trans (le_of_lt (List.sizeOf_lt_of_mem hc)) hsz) ctx
      rcases mockExtractListD_ok_or_unreg_of ctx content hall with ⟨os, hos⟩ | ⟨nm, t, he⟩
      · exact Or.inl ⟨.hstack ⟨os, align, sp⟩, by simp [mockExtractDynamic, hos]⟩
      · exact Or.inr ⟨nm, t, by simp [mockExtractDynamic, he]⟩

/-- C1: for a view type `V` registered in a `ViewRegistry` via
`register::<V, B>()` (the extractors map holds, under `V`'s type id, the
closure `register` builds from `B`'s static extractor), and any view value
of type `V` (its `as_any` boxes the payload `x` at code `V`),
`extract_dynamic` returns `Ok` of a boxed value that downcasts to `B`'s
output type and equals the static `B::extract` result; a static error is
returned unchanged. -/
theorem extract_dynamic_agrees_with_static
    (r : ViewRegistry) (V Out : Ty)
    (ex : V.denote → RenderContext → ExtractionResult Out.denote)
    (w : DynView) (x : V.denote) (ctx : RenderContext)
    (hreg : mapFind? V r.extractors = some (registerClosure V Out ex))
    (hview : w.as_any = ⟨V, x⟩) :
    (∀ out, ex x ctx = .ok out →
      ∃ b, r.extract_dynamic w ctx = .ok b ∧ b.downcast Out = some out) ∧
    (∀ e, ex x ctx = .error e → r.extract_dynamic w ctx = .error e) := by
  have hty : w.typeId = V := by rw [← DynView.asAny_ty w, hview]
  constructor
  · intro out hout
    refine ⟨⟨Out, out⟩, ?_, ?_⟩
    · unfold ViewRegistry.extract_dynamic
      rw [hty, hreg, hview]
      simp [registerClosure, AnyVal.downcast, hout]
    · simp [AnyVal.downcast]
  · intro e he
    unfold ViewRegistry.extract_dynamic
    rw [hty, hreg, hview]
    simp [registerClosure, AnyVal.downcast, he]

/-- Witness for C1: a registry holding only `Text` extracts the view
`Text::new("Hello")` dynamically to the box whose `MockText` payload is the
static extraction result. -/
theorem extract_dynamic_agrees_with_static_witness :
    ∃ b, (ViewRegistry.new.register .text .mockText
        MockBackend.extractText).extract_dynamic
        (.text (Text.new "Hello")) RenderContext.new = .ok b ∧
      b.downcast .mockText = some ⟨"Hello", F32.sixteen, Color.BLACK⟩ :=
  (extract_dynamic_agrees_with_static
    (ViewRegistry.new.register .text .mockText MockBackend.extractText)
    .text .mockText MockBackend.extractText
    (.text (Text.new "Hello")) (Text.new "Hello") RenderContext.new
    rfl rfl).1 ⟨"Hello", F32.sixteen, Color.BLACK⟩ rfl

/-- C3: for any registry and any view whose runtime type id has no entry in
the extractors map, `extract_dynamic` fails with `UnregisteredType` carrying
the view's runtime type id (and the trait-object name
`type_name_of_val(view)` produces), and `extract_and_convert` surfaces the
same error; both are total functions, so no panic is possible. -/
theorem extract_dynamic_unregistered_error (r : ViewRegistry) (v : DynView)
    (ctx : RenderContext)
    (h : mapFind? v.typeId r.extractors = none) :
    r.extract_dynamic v ctx =
      .error (.unregisteredType dynViewTraitObjectName v.typeId) ∧
    r.extract_and_convert v ctx =
      .error (.unregisteredType dynViewTraitObjectName v.typeId) := by
  have h1 : r.extract_dynamic v ctx =
      .error (.unregisteredType dynViewTraitObjectName v.typeId) := by
    unfold ViewRegistry.extract_dynamic
    rw [h]
  refine ⟨h1, ?_⟩
  unfold ViewRegistry.extract_and_convert
  rw [h1]

/-- Witness for C3: the empty registry rejects a custom view with the
`UnregisteredType` error through both entry points. -/
theorem extract_dynamic_unregistered_error_witness :
    ViewRegistry.new.extract_dynamic (.custom 7) RenderContext.new =
      .error (.unregisteredType dynViewTraitObjectName (Ty.custom 7)) ∧
    ViewRegistry.new.extract_and_convert (.custom 7) RenderContext.new =
      .error (.unregisteredType dynViewTraitObjectName (Ty.custom 7)) :=
  extract_dynamic_unregistered_error ViewRegistry.new (.custom 7)
    RenderContext.new rfl

/-- C4: `extract_and_convert` first runs `extract_dynamic`; an extraction
error is returned unchanged; on success the registered converter (if any)
is applied to the extracted output, and without a converter the raw output
passes through unchanged. -/
theorem extract_and_convert_decomposition (r : ViewRegistry) (v : DynView)
    (ctx : RenderContext) :
    (∀ e, r.extract_dynamic v ctx = .error e →
      r.extract_and_convert v ctx = .error e) ∧
    (∀ x conv, r.extract_dynamic v ctx = .ok x →
      mapFind? v.typeId r.converters = some conv →
      r.extract_and_convert v ctx = conv x) ∧
    (∀ x, r.extract_dynamic v ctx = .ok x →
      mapFind? v.typeId r.converters = none →
      r.extract_and_convert v ctx = .ok x) := by
  refine ⟨?_, ?_, ?_⟩
  · intro e he
    unfold ViewRegistry.extract_and_convert
    rw [he]
  · intro x conv hx hconv
    unfold ViewRegistry.extract_and_convert
    rw [hx, hconv]
  · intro x hx hconv
    unfold ViewRegistry.extract_and_convert
    rw [hx, hconv]

/-- Witness for C4: on the mock registry, extracting a `Text` view uses the
registered `Text` converter on the extracted `MockText` box. -/
theorem extract_and_convert_decomposition_witness :
    mockRegistry.extract_and_convert (.text (Text.new "A")) RenderContext.new =
      converterClosure .mockText .mockDynamicChild MockDynamicChild.text
        ⟨.mockText, ⟨"A", F32.sixteen, Color.BLACK⟩⟩ :=
  (extract_and_convert_decomposition mockRegistry (.text (Text.new "A"))
    RenderContext.new).2.1 ⟨.mockText, ⟨"A", F32.sixteen, Color.BLACK⟩⟩
    (converterClosure .mockText .mockDynamicChild MockDynamicChild.text)
    rfl rfl

/-- C9: the introspection operations reflect only the extractors map:
`is_registered` is false on a fresh registry; after `register::<V, B>()` it
is true for `V` and unchanged for other types; `register_converter` changes
neither `is_registered` nor `len` nor `is_empty`; and registering the same
`V` twice leaves `len` unchanged, the second closure overwriting the
first. -/
theorem registry_introspection_frame (r : ViewRegistry) (V W Out Out2 E C : Ty)
    (ex : V.denote → RenderContext → ExtractionResult Out.denote)
    (ex2 : V.denote → RenderContext → ExtractionResult Out2.denote)
    (f : E.denote → C.denote) :
    ViewRegistry.new.is_registered V = false ∧
    (r.register V Out ex).is_registered V = true ∧
    (r.register V Out ex).is_registered W =
      (if W = V then true else r.is_registered W) ∧
    (r.register_converter V E C f).is_registered W = r.is_registered W ∧
    (r.register_converter V E C f).len = r.len ∧
    (r.register_converter V E C f).is_empty = r.is_empty ∧
    ((r.register V Out ex).register V Out2 ex2).len = (r.register V Out ex).len ∧
    mapFind? V ((r.register V Out ex).register V Out2 ex2).extractors =
      some (registerClosure V Out2 ex2) := by
  refine ⟨rfl, ?_, ?_, rfl, rfl, rfl, ?_, ?_⟩
  · simp [ViewRegistry.is_registered, ViewRegistry.register, mapFind?_mapInsert]
  · by_cases h : W = V
    · simp [h, ViewRegistry.is_registered, ViewRegistry.register, mapFind?_mapInsert]
    · simp [h, ViewRegistry.is_registered, ViewRegistry.register, mapFind?_mapInsert]
  · have hsome : (mapFind? V
        (mapInsert V (registerClosure V Out ex) r.extractors)).isSome = true := by
      simp [mapFind?_mapInsert]
    simp [ViewRegistry.len, ViewRegistry.register, length_mapInsert, hsome]
  · simp [ViewRegistry.register, mapFind?_mapInsert]

/-- C10: the dynamic stack builder methods touch only the content list:
`child` appends at the end, `children` replaces the whole list, and
`conditional_children` appends exactly when the condition holds; alignment
and spacing are never changed, for both `VStack` and `HStack`. -/
theorem dynamic_builder_frame (s : VStack (List DynView))
    (t : HStack (List DynView)) (c : DynView) (cs : List DynView) :
    ((s.child c).content = s.content ++ [c] ∧
     (s.child c).alignment = s.alignment ∧ (s.child c).spacing = s.spacing) ∧
    ((s.children cs).content = cs ∧
     (s.children cs).alignment = s.alignment ∧
     (s.children cs).spacing = s.spacing) ∧
    (s.conditional_children false cs = s ∧
     (s.conditional_children true cs).content = s.content ++ cs ∧
     (s.conditional_children true cs).alignment = s.alignment ∧
     (s.conditional_children true cs).spacing = s.spacing) ∧
    ((t.child c).content = t.content ++ [c] ∧
     (t.child c).alignment = t.alignment ∧ (t.child c).spacing = t.spacing) ∧
    ((t.children cs).content = cs ∧
     (t.children cs).alignment = t.alignment ∧
     (t.children cs).spacing = t.spacing) ∧
    (t.conditional_children false cs = t ∧
     (t.conditional_children true cs).content = t.content ++ cs ∧
     (t.conditional_children true cs).alignment = t.alignment ∧
     (t.conditional_children true cs).spacing = t.spacing) := by
  obtain ⟨sc, sa, ss⟩ := s
  obtain ⟨tc, ta, ts⟩ := t
  exact ⟨⟨rfl, rfl, rfl⟩, ⟨rfl, rfl, rfl⟩, ⟨rfl, rfl, rfl, rfl⟩,
    ⟨rfl, rfl, rfl⟩, ⟨rfl, rfl, rfl⟩, ⟨rfl, rfl, rfl, rfl⟩⟩

theorem applyOps_converters_subset (ops : List RegOp) :
    ∀ (S : List Ty) (r : ViewRegistry),
    (∀ k ∈ S, (mapFind? k r.extractors).isSome = true) →
    (∀ k, (mapFind? k r.converters).isSome = true →
      (mapFind? k r.extractors).isSome = true) →
    orderedSeq S ops →
    ∀ k, (mapFind? k (applyOps r ops).converters).isSome = true →
      (mapFind? k (applyOps r ops).extractors).isSome = true := by
  induction ops with
  | nil =>
    intro S r hS hinv hseq k
    exact hinv k
  | cons op rest ih =>
    intro S r hS hinv hseq k
    cases op with
    | reg V Out ex =>
      refine ih (V :: S) (r.register V Out ex) ?_ ?_ hseq k
      · intro k2 hk2
        rcases List.mem_cons.mp hk2 with h | h
        · subst h
          simp [ViewRegistry.register, mapFind?_mapInsert]
        · by_cases hkV : k2 = V
          · subst hkV
            simp [ViewRegistry.register, mapFind?_mapInsert]
          · simp [ViewRegistry.register, mapFind?_mapInsert, hkV, hS k2 h]
      · intro k2 hk2
        by_cases hkV : k2 = V
        · subst hkV
          simp [ViewRegistry.register, mapFind?_mapInsert]
        · simp [ViewRegistry.register, mapFind?_mapInsert, hkV]
          exact hinv k2 hk2
    | regConv V E C f =>
      have hseq2 : V ∈ S ∧ orderedSeq S rest := hseq
      refine ih S (r.register_converter V E C f) (fun k2 hk2 => hS k2 hk2) ?_ hseq2.2 k
      · intro k2 hk2
        by_cases hkV : k2 = V
        · subst hkV
          exact hS _ hseq2.1
        · have h2 : (mapFind? k2 r.converters).isSome = true := by
            simpa [ViewRegistry.register_converter, mapFind?_mapInsert, hkV] using hk2
          exact hinv k2 h2

/-- C2 as stated is false: a lone `register_converter::<Text, _, _>` call on
a fresh registry creates a converters entry for `Text`'s type id while the
extractors map stays empty; `register_converter` never checks the
extractors map. -/
theorem converter_without_extractor_counterexample :
    ((applyOps ViewRegistry.new
      [.regConv .text .mockText .mockDynamicChild MockDynamicChild.text]).converters.map
        Prod.fst) = [Ty.text] ∧
    (applyOps ViewRegistry.new
      [.regConv .text .mockText .mockDynamicChild MockDynamicChild.text]).extractors = [] :=
  ⟨rfl, rfl⟩

/-- C2 amended: for every registry reachable from `ViewRegistry::new` by a
registration sequence in which each `register_converter::<V, ..>` call is
preceded by a `register::<V, _>` call (as in `MockBackend::new`), every type
id with a converters entry also has an extractors entry. -/
theorem converters_subset_extractors_of_ordered_registration
    (ops : List RegOp) (h : orderedSeq [] ops) (k : Ty)
    (hconv : (mapFind? k (applyOps ViewRegistry.new ops).converters).isSome = true) :
    (mapFind? k (applyOps ViewRegistry.new ops).extractors).isSome = true :=
  applyOps_converters_subset ops [] ViewRegistry.new
    (fun k2 hk2 => absurd hk2 (List.not_mem_nil k2))
    (fun k2 hk2 => by simp [ViewRegistry.new, mapFind?] at hk2)
    h k hconv

/-- Witness for the amended C2: registering `Text`'s extractor and then its
converter leaves `Text`'s type id present in the extractors map. -/
theorem converters_subset_extractors_of_ordered_registration_witness :
    (mapFind? Ty.text (applyOps ViewRegistry.new
      [.reg .text .mockText MockBackend.extractText,
       .regConv .text .mockText .mockDynamicChild
         MockDynamicChild.text]).extractors).isSome = true :=
  converters_subset_extractors_of_ordered_registration
    [.reg .text .mockText MockBackend.extractText,
     .regConv .text .mockText .mockDynamicChild MockDynamicChild.text]
    (by simp [orderedSeq]) Ty.text rfl

theorem except_bind_eq_match {α β : Type} (x : ExtractionResult α)
    (f : α → ExtractionResult β) :
    (x >>= f) = match x with | .error e => .error e | .ok a => f a := by
  cases x <;> rfl

theorem except_pure_eq_ok {α : Type} (a : α) :
    (pure a : ExtractionResult α) = .ok a := rfl

/-- C5: the composite blanket implementations for `Option<V>` and tuples of
arity 2 through 12 extract each slot with its own extractor exactly once,
in left-to-right order, short-circuit on the first error with no partial
result, and wrap the outputs into `Option` / a tuple: each equals the
explicit first-error chain of its component extractions, so each tuple
element equals the extraction of that element alone. -/
theorem composite_blanket_extraction_spec :
    (∀ {A O : Type} (e : A → RenderContext → ExtractionResult O)
      (ctx : RenderContext),
      MockBackend.extractOption e none ctx = .ok none) ∧
    (∀ {A O : Type} (e : A → RenderContext → ExtractionResult O) (v : A)
      (ctx : RenderContext),
      MockBackend.extractOption e (some v) ctx =
        match e v ctx with
        | .error err => .error err
        | .ok o => .ok (some o)) ∧
    (∀ {A1 A2 O1 O2 : Type}
      (e1 : A1 → RenderContext → ExtractionResult O1)
      (e2 : A2 → RenderContext → ExtractionResult O2)
      (v1 : A1) (v2 : A2) (ctx : RenderContext),
      MockBackend.extractTuple2 e1 e2 (v1, v2) ctx =
  match e1 v1 ctx with
  | .error e => .error e
  | .ok o1 =>
    match e2 v2 ctx with
    | .error e => .error e
    | .ok o2 => .ok (o1, o2)) ∧
    (∀ {A1 A2 A3 O1 O2 O3 : Type}
      (e1 : A1 → RenderContext → ExtractionResult O1)
      (e2 : A2 → RenderContext → ExtractionResult O2)
      (e3 : A3 → RenderContext → ExtractionResult O3)
      (v1 : A1) (v2 : A2) (v3 : A3) (ctx : RenderContext),
      MockBackend.extractTuple3 e1 e2 e3 (v1, v2, v3) ctx =
  match e1 v1 ctx with
  | .error e => .error e
  | .ok o1 =>
    match e2 v2 ctx with
    | .error e => .error e
    | .ok o2 =>
      match e3 v3 ctx with
      | .error e => .error e
      | .ok o3 => .ok (o1, o2, o3)) ∧
    (∀ {A1 A2 A3 A4 O1 O2 O3 O4 : Type}
      (e1 : A1 → RenderContext → ExtractionResult O1)
      (e2 : A2 → RenderContext → ExtractionResult O2)
      (e3 : A3 → RenderContext → ExtractionResult O3)
      (e4 : A4 → RenderContext → ExtractionResult O4)
      (v1 : A1) (v2 : A2) (v3 : A3) (v4 : A4) (ctx : RenderContext),
      MockBackend.extractTuple4 e1 e2 e3 e4 (v1, v2, v3, v4) ctx =
  match e1 v1 ctx with
  | .error e => .error e
  | .ok o1 =>
    match e2 v2 ctx with
    | .error e => .error e
    | .ok o2 =>
      match e3 v3 ctx with
      | .error e => .error e
      | .ok o3 =>
        match e4 v4 ctx with
        | .error e => .error e
        | .ok o4 => .ok (o1, o2, o3, o4)) ∧
    (∀ {A1 A2 A3 A4 A5 O1 O2 O3 O4 O5 : Type}
      (e1 : A1 → RenderContext → ExtractionResult O1)
      (e2 : A2 → RenderContext → ExtractionResult O2)
      (e3 : A3 → RenderContext → ExtractionResult O3)
      (e4 : A4 → RenderContext → ExtractionResult O4)
      (e5 : A5 → RenderContext → ExtractionResult O5)
      (v1 : A1) (v2 : A2) (v3 : A3) (v4 : A4) (v5 : A5) (ctx : RenderContext),
      MockBackend.extractTuple5 e1 e2 e3 e4 e5 (v1, v2, v3, v4, v5) ctx =
  match e1 v1 ctx with
  | .error e => .error e
  | .ok o1 =>
    match e2 v2 ctx with
    | .error e => .error e
    | .ok o2 =>
      match e3 v3 ctx with
      | .error e => .error e
      | .ok o3 =>
        match e4 v4 ctx with
        | .error e => .error e
        | .ok o4 =>
          match e5 v5 ctx with
          | .error e => .error e
          | .ok o5 => .ok (o1, o2, o3, o4, o5)) ∧
    (∀ {A1 A2 A3 A4 A5 A6 O1 O2 O3 O4 O5 O6 : Type}
      (e1 : A1 → RenderContext → ExtractionResult O1)
      (e2 : A2 → RenderContext → ExtractionResult O2)
      (e3 : A3 → RenderContext → ExtractionResult O3)
      (e4 : A4 → RenderContext → ExtractionResult O4)
      (e5 : A5 → RenderContext → ExtractionResult O5)
      (e6 : A6 → RenderContext → ExtractionResult O6)
      (v1 : A1) (v2 : A2) (v3 : A3) (v4 : A4) (v5 : A5) (v6 : A6) (ctx : RenderContext),
      MockBackend.extractTuple6 e1 e2 e3 e4 e5 e6 (v1, v2, v3, v4, v5, v6) ctx =
  match e1 v1 ctx with
  | .error e => .error e
  | .ok o1 =>
    match e2 v2 ctx with
    | .error e => .error e
    | .ok o2 =>
      match e3 v3 ctx with
      | .error e => .error e
      | .ok o3 =>
        match e4 v4 ctx with
        | .error e => .error e
        | .ok o4 =>
          match e5 v5 ctx with
          | .error e => .error e
          | .ok o5 =>
            match e6 v6 ctx with
            | .error e => .error e
            | .ok o6 => .ok (o1, o2, o3, o4, o5, o6)) ∧
    (∀ {A1 A2 A3 A4 A5 A6 A7 O1 O2 O3 O4 O5 O6 O7 : Type}
      (e1 : A1 → RenderContext → ExtractionResult O1)
      (e2 : A2 → RenderContext → ExtractionResult O2)
      (e3 : A3 → RenderContext → ExtractionResult O3)
      (e4 : A4 → RenderContext → ExtractionResult O4)
      (e5 : A5 → RenderContext → ExtractionResult O5)
      (e6 : A6 → RenderContext → ExtractionResult O6)
      (e7 : A7 → RenderContext → ExtractionResult O7)
      (v1 : A1) (v2 : A2) (v3 : A3) (v4 : A4) (v5 : A5) (v6 : A6) (v7 : A7) (ctx : RenderContext),
      MockBackend.extractTuple7 e1 e2 e3 e4 e5 e6 e7 (v1, v2, v3, v4, v5, v6, v7) ctx =
  match e1 v1 ctx with
  | .error e => .error e
  | .ok o1 =>
    match e2 v2 ctx with
    | .error e => .error e
    | .ok o2 =>
      match e3 v3 ctx with
      | .error e => .error e
      | .ok o3 =>
        match e4 v4 ctx with
        | .error e => .error e
        | .ok o4 =>
          match e5 v5 ctx with
          | .error e => .error e
          | .ok o5 =>
            match e6 v6 ctx with
            | .error e => .error e
            | .ok o6 =>
              match e7 v7 ctx with
              | .error e => .error e
              | .ok o7 => .ok (o1, o2, o3, o4, o5, o6, o7)) ∧
    (∀ {A1 A2 A3 A4 A5 A6 A7 A8 O1 O2 O3 O4 O5 O6 O7 O8 : Type}
      (e1 : A1 → RenderContext → ExtractionResult O1)
      (e2 : A2 → RenderContext → ExtractionResult O2)
      (e3 : A3 → RenderContext → ExtractionResult O3)
      (e4 : A4 → RenderContext → ExtractionResult O4)
      (e5 : A5 → RenderContext → ExtractionResult O5)
      (e6 : A6 → RenderContext → ExtractionResult O6)
      (e7 : A7 → RenderContext → ExtractionResult O7)
      (e8 : A8 → RenderContext → ExtractionResult O8)
      (v1 : A1) (v2 : A2) (v3 : A3) (v4 : A4) (v5 : A5) (v6 : A6) (v7 : A7) (v8 : A8) (ctx : RenderContext),
      MockBackend.extractTuple8 e1 e2 e3 e4 e5 e6 e7 e8 (v1, v2, v3, v4, v5, v6, v7, v8) ctx =
  match e1 v1 ctx with
  | .error e => .error e
  | .ok o1 =>
    match e2 v2 ctx with
    | .error e => .error e
    | .ok o2 =>
      match e3 v3 ctx with
      | .error e => .error e
      | .ok o3 =>
        match e4 v4 ctx with
        | .error e => .error e
        | .ok o4 =>
          match e5 v5 ctx with
          | .error e => .error e
          | .ok o5 =>
            match e6 v6 ctx with
            | .error e => .error e
            | .ok o6 =>
              match e7 v7 ctx with
              | .error e => .error e
              | .ok o7 =>
                match e8 v8 ctx with
                | .error e => .error e
                | .ok o8 => .ok (o1, o2, o3, o4, o5, o6, o7, o8)) ∧
    (∀ {A1 A2 A3 A4 A5 A6 A7 A8 A9 O1 O2 O3 O4 O5 O6 O7 O8 O9 : Type}
      (e1 : A1 → RenderContext → ExtractionResult O1)
      (e2 : A2 → RenderContext → ExtractionResult O2)
      (e3 : A3 → RenderContext → ExtractionResult O3)
      (e4 : A4 → RenderContext → ExtractionResult O4)
      (e5 : A5 → RenderContext → ExtractionResult O5)
      (e6 : A6 → RenderContext → ExtractionResult O6)
      (e7 : A7 → RenderContext → ExtractionResult O7)
      (e8 : A8 → RenderContext → ExtractionResult O8)
      (e9 : A9 → RenderContext → ExtractionResult O9)
      (v1 : A1) (v2 : A2) (v3 : A3) (v4 : A4) (v5 : A5) (v6 : A6) (v7 : A7) (v8 : A8) (v9 : A9) (ctx : RenderContext),
      MockBackend.extractTuple9 e1 e2 e3 e4 e5 e6 e7 e8 e9 (v1, v2, v3, v4, v5, v6, v7, v8, v9) ctx =
  match e1 v1 ctx with
  | .error e => .error e
  | .ok o1 =>
    match e2 v2 ctx with
    | .error e => .error e
    | .ok o2 =>
      match e3 v3 ctx with
      | .error e => .error e
      | .ok o3 =>
        match e4 v4 ctx with
        | .error e => .error e
        | .ok o4 =>
          match e5 v5 ctx with
          | .error e => .error e
          | .ok o5 =>
            match e6 v6 ctx with
            | .error e => .error e
            | .ok o6 =>
              match e7 v7 ctx with
              | .error e => .error e
              | .ok o7 =>
                match e8 v8 ctx with
                | .error e => .error e
                | .ok o8 =>
                  match e9 v9 ctx with
                  | .error e => .error e
                  | .ok o9 => .ok (o1, o2, o3, o4, o5, o6, o7, o8, o9)) ∧
    (∀ {A1 A2 A3 A4 A5 A6 A7 A8 A9 A10 O1 O2 O3 O4 O5 O6 O7 O8 O9 O10 : Type}
      (e1 : A1 → RenderContext → ExtractionResult O1)
      (e2 : A2 → RenderContext → ExtractionResult O2)
      (e3 : A3 → RenderContext → ExtractionResult O3)
      (e4 : A4 → RenderContext → ExtractionResult O4)
      (e5 : A5 → RenderContext → ExtractionResult O5)
      (e6 : A6 → RenderContext → ExtractionResult O6)
      (e7 : A7 → RenderContext → ExtractionResult O7)
      (e8 : A8 → RenderContext → ExtractionResult O8)
      (e9 : A9 → RenderContext → ExtractionResult O9)
      (e10 : A10 → RenderContext → ExtractionResult O10)
      (v1 : A1) (v2 : A2) (v3 : A3) (v4 : A4) (v5 : A5) (v6 : A6) (v7 : A7) (v8 : A8) (v9 : A9) (v10 : A10) (ctx : RenderContext),
      MockBackend.extractTuple10 e1 e2 e3 e4 e5 e6 e7 e8 e9 e10 (v1, v2, v3, v4, v5, v6, v7, v8, v9, v10) ctx =
  match e1 v1 ctx with
  | .error e => .error e
  | .ok o1 =>
    match e2 v2 ctx with
    | .error e => .error e
    | .ok o2 =>
      match e3 v3 ctx with
      | .error e => .error e
      | .ok o3 =>
        match e4 v4 ctx with
        | .error e => .error e
        | .ok o4 =>
          match e5 v5 ctx with
          | .error e => .error e
          | .ok o5 =>
            match e6 v6 ctx with
            | .error e => .error e
            | .ok o6 =>
              match e7 v7 ctx with
              | .error e => .error e
              | .ok o7 =>
                match e8 v8 ctx with
                | .error e => .error e
                | .ok o8 =>
                  match e9 v9 ctx with
                  | .error e => .error e
                  | .ok o9 =>
                    match e10 v10 ctx with
                    | .error e => .error e
                    | .ok o10 => .ok (o1, o2, o3, o4, o5, o6, o7, o8, o9, o10)) ∧
    (∀ {A1 A2 A3 A4 A5 A6 A7 A8 A9 A10 A11 O1 O2 O3 O4 O5 O6 O7 O8 O9 O10 O11 : Type}
      (e1 : A1 → RenderContext → ExtractionResult O1)
      (e2 : A2 → RenderContext → ExtractionResult O2)
      (e3 : A3 → RenderContext → ExtractionResult O3)
      (e4 : A4 → RenderContext → ExtractionResult O4)
      (e5 : A5 → RenderContext → ExtractionResult O5)
      (e6 : A6 → RenderContext → ExtractionResult O6)
      (e7 : A7 → RenderContext → ExtractionResult O7)
      (e8 : A8 → RenderContext → ExtractionResult O8)
      (e9 : A9 → RenderContext → ExtractionResult O9)
      (e10 : A10 → RenderContext → ExtractionResult O10)
      (e11 : A11 → RenderContext → ExtractionResult O11)
      (v1 : A1) (v2 : A2) (v3 : A3) (v4 : A4) (v5 : A5) (v6 : A6) (v7 : A7) (v8 : A8) (v9 : A9) (v10 : A10) (v11 : A11) (ctx : RenderContext),
      MockBackend.extractTuple11 e1 e2 e3 e4 e5 e6 e7 e8 e9 e10 e11 (v1, v2, v3, v4, v5, v6, v7, v8, v9, v10, v11) ctx =
  match e1 v1 ctx with
  | .error e => .error e
  | .ok o1 =>
    match e2 v2 ctx with
    | .error e => .error e
    | .ok o2 =>
      match e3 v3 ctx with
      | .error e => .error e
      | .ok o3 =>
        match e4 v4 ctx with
        | .error e => .error e
        | .ok o4 =>
          match e5 v5 ctx with
          | .error e => .error e
          | .ok o5 =>
            match e6 v6 ctx with
            | .error e => .error e
            | .ok o6 =>
              match e7 v7 ctx with
              | .error e => .error e
              | .ok o7 =>
                match e8 v8 ctx with
                | .error e => .error e
                | .ok o8 =>
                  match e9 v9 ctx with
                  | .error e => .error e
                  | .ok o9 =>
                    match e10 v10 ctx with
                    | .error e => .error e
                    | .ok o10 =>
                      match e11 v11 ctx with
                      | .error e => .error e
                      | .ok o11 => .ok (o1, o2, o3, o4, o5, o6, o7, o8, o9, o10, o11)) ∧
    (∀ {A1 A2 A3 A4 A5 A6 A7 A8 A9 A10 A11 A12 O1 O2 O3 O4 O5 O6 O7 O8 O9 O10 O11 O12 : Type}
      (e1 : A1 → RenderContext → ExtractionResult O1)
      (e2 : A2 → RenderContext → ExtractionResult O2)
      (e3 : A3 → RenderContext → ExtractionResult O3)
      (e4 : A4 → RenderContext → ExtractionResult O4)
      (e5 : A5 → RenderContext → ExtractionResult O5)
      (e6 : A6 → RenderContext → ExtractionResult O6)
      (e7 : A7 → RenderContext → ExtractionResult O7)
      (e8 : A8 → RenderContext → ExtractionResult O8)
      (e9 : A9 → RenderContext → ExtractionResult O9)
      (e10 : A10 → RenderContext → ExtractionResult O10)
      (e11 : A11 → RenderContext → ExtractionResult O11)
      (e12 : A12 → RenderContext → ExtractionResult O12)
      (v1 : A1) (v2 : A2) (v3 : A3) (v4 : A4) (v5 : A5) (v6 : A6) (v7 : A7) (v8 : A8) (v9 : A9) (v10 : A10) (v11 : A11) (v12 : A12) (ctx : RenderContext),
      MockBackend.extractTuple12 e1 e2 e3 e4 e5 e6 e7 e8 e9 e10 e11 e12 (v1, v2, v3, v4, v5, v6, v7, v8, v9, v10, v11, v12) ctx =
  match e1 v1 ctx with
  | .error e => .error e
  | .ok o1 =>
    match e2 v2 ctx with
    | .error e => .error e
    | .ok o2 =>
      match e3 v3 ctx with
      | .error e => .error e
      | .ok o3 =>
        match e4 v4 ctx with
        | .error e => .error e
        | .ok o4 =>
          match e5 v5 ctx with
          | .error e => .error e
          | .ok o5 =>
            match e6 v6 ctx with
            | .error e => .error e
            | .ok o6 =>
              match e7 v7 ctx with
              | .error e => .error e
              | .ok o7 =>
                match e8 v8 ctx with
                | .error e => .error e
                | .ok o8 =>
                  match e9 v9 ctx with
                  | .error e => .error e
                  | .ok o9 =>
                    match e10 v10 ctx with
                    | .error e => .error e
                    | .ok o10 =>
                      match e11 v11 ctx with
                      | .error e => .error e
                      | .ok o11 =>
                        match e12 v12 ctx with
                        | .error e => .error e
                        | .ok o12 => .ok (o1, o2, o3, o4, o5, o6, o7, o8, o9, o10, o11, o12)) := by
  refine ⟨fun e ctx => rfl, fun e v ctx => rfl, ?_, ?_, ?_, ?_, ?_, ?_, ?_, ?_, ?_, ?_, ?_⟩ <;>
    (intros
     simp only [MockBackend.extractTuple2, MockBackend.extractTuple3,
       MockBackend.extractTuple4, MockBackend.extractTuple5,
       MockBackend.extractTuple6, MockBackend.extractTuple7,
       MockBackend.extractTuple8, MockBackend.extractTuple9,
       MockBackend.extractTuple10, MockBackend.extractTuple11,
       MockBackend.extractTuple12, except_bind_eq_match, except_pure_eq_ok])

/-- C6 as stated is false: in a dynamic `VStack` whose single child is a
dynamic `VStack` (a type registered with the mock backend) containing a
custom unregistered grandchild, every child has a registered type, yet
extraction returns the grandchild's `UnregisteredType` error instead of
`Ok`. -/
theorem dynamic_stack_registered_children_counterexample :
    mockRegistry.is_registered
      (DynView.vstack ⟨[DynView.custom 0], .Leading, F32.zero⟩).typeId = true ∧
    MockBackend.extractVStackDyn
      ⟨[DynView.vstack ⟨[DynView.custom 0], .Leading, F32.zero⟩], .Leading, F32.zero⟩
      RenderContext.new =
      .error (.unregisteredType dynViewTraitObjectName (Ty.custom 0)) :=
  ⟨rfl, rfl⟩

/-- C6 amended: for a dynamic `VStack`/`HStack` each of whose children
extracts successfully through the backend (in particular every type in the
child's subtree is registered), extraction yields `Ok` of a mock stack
whose content list has the same length, whose element `i` is the dynamic
extraction of child `i` in original order, and whose alignment and spacing
are copied verbatim; if a child fails while all earlier children succeed,
that first child error is returned. -/
theorem dynamic_stack_extraction_spec (content : List DynView)
    (align : Alignment) (sp : F32) (ctx : RenderContext) :
    ((∀ c ∈ content, ∃ o, MockBackend.extract_dynamic c ctx = .ok o) →
      ∃ cs, MockBackend.extractVStackDyn ⟨content, align, sp⟩ ctx =
          .ok ⟨cs, align, sp⟩ ∧
        cs.length = content.length ∧
        ∀ (i : Nat) (h1 : i < content.length) (h2 : i < cs.length),
          MockBackend.extract_dynamic (content.get ⟨i, h1⟩) ctx =
            .ok (cs.get ⟨i, h2⟩)) ∧
    (∀ pre c post e,
      (∀ x ∈ pre, ∃ o, MockBackend.extract_dynamic x ctx = .ok o) →
      MockBackend.extract_dynamic c ctx = .error e →
      MockBackend.extractVStackDyn ⟨pre ++ c :: post, align, sp⟩ ctx = .error e) ∧
    ((∀ c ∈ content, ∃ o, MockBackend.extract_dynamic c ctx = .ok o) →
      ∃ cs, MockBackend.extractHStackDyn ⟨content, align, sp⟩ ctx =
          .ok ⟨cs, align, sp⟩ ∧
        cs.length = content.length ∧
        ∀ (i : Nat) (h1 : i < content.length) (h2 : i < cs.length),
          MockBackend.extract_dynamic (content.get ⟨i, h1⟩) ctx =
            .ok (cs.get ⟨i, h2⟩)) ∧
    (∀ pre c post e,
      (∀ x ∈ pre, ∃ o, MockBackend.extract_dynamic x ctx = .ok o) →
      MockBackend.extract_dynamic c ctx = .error e →
      MockBackend.extractHStackDyn ⟨pre ++ c :: post, align, sp⟩ ctx = .error e) := by
  have conv : ∀ (l : List DynView),
      (∀ c ∈ l, ∃ o, MockBackend.extract_dynamic c ctx = .ok o) →
      ∀ c ∈ l, ∃ o, mockExtractDynamic c ctx = .ok o := by
    intro l h c hc
    obtain ⟨o, ho⟩ := h c hc
    exact ⟨o, by rw [← mockBackend_extract_dynamic_spec]; exact ho⟩
  refine ⟨?_, ?_, ?_, ?_⟩
  · intro h
    obtain ⟨os, hos, hlen, hidx⟩ := mockExtractListD_ok_of ctx content (conv content h)
    refine ⟨os, ?_, hlen, ?_⟩
    · simp [MockBackend.extractVStackDyn, hos]
    · intro i h1 h2
      rw [mockBackend_extract_dynamic_spec]
      exact hidx i h1 h2
  · intro pre c post e hpre hc
    have he := mockExtractListD_error_of ctx pre c post e (conv pre hpre)
      (by rw [← mockBackend_extract_dynamic_spec]; exact hc)
    simp [MockBackend.extractVStackDyn, he]
  · intro h
    obtain ⟨os, hos, hlen, hidx⟩ := mockExtractListD_ok_of ctx content (conv content h)
    refine ⟨os, ?_, hlen, ?_⟩
    · simp [MockBackend.extractHStackDyn, hos]
    · intro i h1 h2
      rw [mockBackend_extract_dynamic_spec]
      exact hidx i h1 h2
  · intro pre c post e hpre hc
    have he := mockExtractListD_error_of ctx pre c post e (conv pre hpre)
      (by rw [← mockBackend_extract_dynamic_spec]; exact hc)
    simp [MockBackend.extractHStackDyn, he]

/-- Witness for the amended C6: a dynamic `VStack` with 1,000 text children
extracts to `Ok` with exactly 1,000 outputs and verbatim alignment and
spacing. -/
theorem dynamic_stack_extraction_spec_witness :
    ∃ cs, MockBackend.extractVStackDyn
        ⟨List.replicate 1000 (DynView.text (Text.new "Item")), .Leading, F32.zero⟩
        RenderContext.new = .ok ⟨cs, .Leading, F32.zero⟩ ∧
      cs.length = 1000 := by
  obtain ⟨cs, hcs, hlen, _⟩ :=
    (dynamic_stack_extraction_spec
      (List.replicate 1000 (DynView.text (Text.new "Item")))
      .Leading F32.zero RenderContext.new).1
      (fun c hc => by
        rw [List.eq_of_mem_replicate hc]
        exact ⟨.text ⟨"Item", F32.sixteen, Color.BLACK⟩, rfl⟩)
  refine ⟨cs, hcs, ?_⟩
  rw [hlen]
  exact List.length_replicate 1000 (DynView.text (Text.new "Item"))

theorem DynView.downcast_asAny_typeId (v : DynView) :
    v.as_any.downcast v.typeId = some v.payload := by
  cases v <;> simp [DynView.as_any, DynView.typeId, DynView.payload, AnyVal.downcast]

/-- Under the registration invariant, both registry entry points produce
only `Ok` or `UnregisteredType`: the stored closure's downcast succeeds
because `as_any` boxes the view at its own type id, the static extractor
contributes only `Ok`-or-`UnregisteredType` outcomes, and the converter's
output downcast succeeds because it is keyed to the extractor's exact
output type. -/
theorem regInv_ok_or_unreg (r : ViewRegistry) (hr : RegInv r) (v : DynView)
    (ctx : RenderContext) :
    okOrUnreg (r.extract_dynamic v ctx) ∧
    okOrUnreg (r.extract_and_convert v ctx) := by
  cases hx : mapFind? v.typeId r.extractors with
  | none =>
    have h1 : r.extract_dynamic v ctx =
        .error (.unregisteredType dynViewTraitObjectName v.typeId) := by
      unfold ViewRegistry.extract_dynamic
      rw [hx]
    have h2 : r.extract_and_convert v ctx =
        .error (.unregisteredType dynViewTraitObjectName v.typeId) := by
      unfold ViewRegistry.extract_and_convert
      rw [h1]
    exact ⟨Or.inr ⟨_, _, h1⟩, Or.inr ⟨_, _, h2⟩⟩
  | some g =>
    obtain ⟨Out, ex, hg, hok, hconv⟩ := hr v.typeId g hx
    have hstep : r.extract_dynamic v ctx =
        registerClosure v.typeId Out ex v.as_any ctx := by
      unfold ViewRegistry.extract_dynamic
      rw [hx, hg]
    have hed : r.extract_dynamic v ctx =
        (match ex v.payload ctx with
         | .error e => .error e
         | .ok out => .ok ⟨Out, out⟩) := by
      rw [hstep]
      unfold registerClosure
      rw [DynView.downcast_asAny_typeId v]
    rcases hok v.payload ctx with ⟨o, ho⟩ | ⟨n, t, he⟩
    · have hok2 : r.extract_dynamic v ctx = .ok ⟨Out, o⟩ := by rw [hed, ho]
      refine ⟨Or.inl ⟨_, hok2⟩, ?_⟩
      cases hc : mapFind? v.typeId r.converters with
      | none =>
        refine Or.inl ⟨⟨Out, o⟩, ?_⟩
        unfold ViewRegistry.extract_and_convert
        rw [hok2, hc]
      | some h =>
        obtain ⟨C, f, hh⟩ := hconv h hc
        refine Or.inl ⟨⟨C, f o⟩, ?_⟩
        unfold ViewRegistry.extract_and_convert
        rw [hok2, hc, hh]
        unfold converterClosure
        simp [AnyVal.downcast]
    · have herr : r.extract_dynamic v ctx = .error (.unregisteredType n t) := by
        rw [hed, he]
      refine ⟨Or.inr ⟨n, t, herr⟩, Or.inr ⟨n, t, ?_⟩⟩
      unfold ViewRegistry.extract_and_convert
      rw [herr]

/-- A correct registration sequence keeps the registration invariant:
`register` installs a `register`-built closure while no converter for that
type exists yet, and `register_converter` installs a converter keyed to the
current extractor's output type. -/
theorem correctSeq_regInv (ops : List RegOp) :
    ∀ (r : ViewRegistry), RegInv r → correctSeq r ops →
      RegInv (applyOps r ops) := by
  induction ops with
  | nil =>
    intro r hr _
    exact hr
  | cons op rest ih =>
    intro r hr hseq
    cases op with
    | reg V Out ex =>
      obtain ⟨hok, hcnone, hrest⟩ := hseq
      refine ih (r.register V Out ex) ?_ hrest
      intro W g hW
      by_cases hWV : W = V
      · subst hWV
        have hg : registerClosure W Out ex = g := by
          simpa [ViewRegistry.register, mapFind?_mapInsert] using hW
        refine ⟨Out, ex, hg.symm, hok, ?_⟩
        intro h hh
        have hh2 : mapFind? W r.converters = some h := hh
        rw [hcnone] at hh2
        cases hh2
      · have hW2 : mapFind? W r.extractors = some g := by
          simpa [ViewRegistry.register, mapFind?_mapInsert, hWV] using hW
        obtain ⟨Out2, ex2, hg, hok2, hconv2⟩ := hr W g hW2
        exact ⟨Out2, ex2, hg, hok2, fun h hh => hconv2 h hh⟩
    | regConv V E C f =>
      obtain ⟨⟨ex0, hxfind, hok0⟩, hcnone, hrest⟩ := hseq
      refine ih (r.register_converter V E C f) ?_ hrest
      intro W g hW
      have hW2 : mapFind? W r.extractors = some g := hW
      by_cases hWV : W = V
      · subst hWV
        have hg : g = registerClosure W E ex0 := by
          rw [hW2] at hxfind
          injection hxfind
        refine ⟨E, ex0, hg, hok0, ?_⟩
        intro h hh
        have hh2 : converterClosure E C f = h := by
          simpa [ViewRegistry.register_converter, mapFind?_mapInsert] using hh
        exact ⟨C, f, hh2.symm⟩
      · obtain ⟨Out2, ex2, hg, hok2, hconv2⟩ := hr W g hW2
        refine ⟨Out2, ex2, hg, hok2, ?_⟩
        intro h hh
        have hh2 : mapFind? W r.converters = some h := by
          simpa [ViewRegistry.register_converter, mapFind?_mapInsert, hWV] using hh
        exact hconv2 h hh2

theorem extractVStackDyn_ok_or_unreg (x : VStack (List DynView))
    (ctx : RenderContext) : okOrUnreg (MockBackend.extractVStackDyn x ctx) := by
  rcases mockExtractListD_ok_or_unreg_of ctx x.content
      (fun c _ => mockExtractDynamic_ok_or_unreg c ctx) with ⟨os, hos⟩ | ⟨n, t, he⟩
  · exact Or.inl ⟨⟨os, x.alignment, x.spacing⟩,
      by simp [MockBackend.extractVStackDyn, hos]⟩
  · exact Or.inr ⟨n, t, by simp [MockBackend.extractVStackDyn, he]⟩

theorem extractHStackDyn_ok_or_unreg (x : HStack (List DynView))
    (ctx : RenderContext) : okOrUnreg (MockBackend.extractHStackDyn x ctx) := by
  rcases mockExtractListD_ok_or_unreg_of ctx x.content
      (fun c _ => mockExtractDynamic_ok_or_unreg c ctx) with ⟨os, hos⟩ | ⟨n, t, he⟩
  · exact Or.inl ⟨⟨os, x.alignment, x.spacing⟩,
      by simp [MockBackend.extractHStackDyn, hos]⟩
  · exact Or.inr ⟨n, t, by simp [MockBackend.extractHStackDyn, he]⟩

/-- C7: for every registry populated from `ViewRegistry::new` by a correct
registration sequence (each type registered via `register::<V, B>()` with a
static extractor whose outcomes are `Ok` or `UnregisteredType`, and at most
one converter per type via `register_converter` with the same `V` and `E`
equal to `B`'s output for `V`, as in `MockBackend::new`), and for every
view (whose `as_any`, as in every `View` impl of the repository, returns
itself), `extract_dynamic` and `extract_and_convert` return only `Ok` or
`UnregisteredType` — `DowncastFailed` and `OutputDowncastFailed` are
unreachable — and likewise for `MockBackend::extract_dynamic`, the
instance of this class the mock backend builds. -/
theorem mock_extraction_no_downcast_errors (ops : List RegOp)
    (hops : correctSeq ViewRegistry.new ops) (v : DynView)
    (ctx : RenderContext) :
    okOrUnreg ((applyOps ViewRegistry.new ops).extract_dynamic v ctx) ∧
    okOrUnreg ((applyOps ViewRegistry.new ops).extract_and_convert v ctx) ∧
    okOrUnreg (MockBackend.extract_dynamic v ctx) := by
  have hinv : RegInv (applyOps ViewRegistry.new ops) := by
    refine correctSeq_regInv ops ViewRegistry.new ?_ hops
    intro V g h
    simp [ViewRegistry.new, mapFind?] at h
  obtain ⟨h1, h2⟩ := regInv_ok_or_unreg (applyOps ViewRegistry.new ops) hinv v ctx
  refine ⟨h1, h2, ?_⟩
  rcases mockExtractDynamic_ok_or_unreg v ctx with ⟨c, h⟩ | ⟨n, t, h⟩
  · exact Or.inl ⟨c, by rw [mockBackend_extract_dynamic_spec]; exact h⟩
  · exact Or.inr ⟨n, t, by rw [mockBackend_extract_dynamic_spec]; exact h⟩

/-- Witness for C7: running `MockBackend::new`'s exact registration
sequence (five extractors, then their five matching converters) yields the
mock registry, and extracting a concrete `Text` view through all three
entry points stays within `Ok`-or-`UnregisteredType`. -/
theorem mock_extraction_no_downcast_errors_witness :
    okOrUnreg (mockRegistry.extract_dynamic (.text (Text.new "W"))
      RenderContext.new) ∧
    okOrUnreg (mockRegistry.extract_and_convert (.text (Text.new "W"))
      RenderContext.new) ∧
    okOrUnreg (MockBackend.extract_dynamic (.text (Text.new "W"))
      RenderContext.new) := by
  have h := mock_extraction_no_downcast_errors
    [.reg .text .mockText MockBackend.extractText,
     .reg .button .mockButton MockBackend.extractButton,
     .reg .spacer .mockSpacer MockBackend.extractSpacer,
     .reg .vstackDyn .mockVStackDyn MockBackend.extractVStackDyn,
     .reg .hstackDyn .mockHStackDyn MockBackend.extractHStackDyn,
     .regConv .text .mockText .mockDynamicChild MockDynamicChild.text,
     .regConv .button .mockButton .mockDynamicChild MockDynamicChild.button,
     .regConv .spacer .mockSpacer .mockDynamicChild MockDynamicChild.spacer,
     .regConv .vstackDyn .mockVStackDyn .mockDynamicChild MockDynamicChild.vstack,
     .regConv .hstackDyn .mockHStackDyn .mockDynamicChild MockDynamicChild.hstack]
    (by
      refine ⟨fun x ctx => Or.inl ⟨_, rfl⟩, rfl, ?_⟩
      refine ⟨fun x ctx => Or.inl ⟨_, rfl⟩, rfl, ?_⟩
      refine ⟨fun x ctx => Or.inl ⟨_, rfl⟩, rfl, ?_⟩
      refine ⟨fun x ctx => extractVStackDyn_ok_or_unreg x ctx, rfl, ?_⟩
      refine ⟨fun x ctx => extractHStackDyn_ok_or_unreg x ctx, rfl, ?_⟩
      refine ⟨⟨MockBackend.extractText, rfl, fun x ctx => Or.inl ⟨_, rfl⟩⟩, rfl, ?_⟩
      refine ⟨⟨MockBackend.extractButton, rfl, fun x ctx => Or.inl ⟨_, rfl⟩⟩, rfl, ?_⟩
      refine ⟨⟨MockBackend.extractSpacer, rfl, fun x ctx => Or.inl ⟨_, rfl⟩⟩, rfl, ?_⟩
      refine ⟨⟨MockBackend.extractVStackDyn, rfl,
        fun x ctx => extractVStackDyn_ok_or_unreg x ctx⟩, rfl, ?_⟩
      exact ⟨⟨MockBackend.extractHStackDyn, rfl,
        fun x ctx => extractHStackDyn_ok_or_unreg x ctx⟩, rfl, trivial⟩)
    (.text (Text.new "W")) RenderContext.new
  exact h

/-- C8: extraction via the static path is deterministic and read-only: for
every static extractor of the mock backend — the leaves `Text`,
`ButtonView` and `Spacer`, the `Option` blanket impl, the tuple blanket
impls of every arity 2 through 12 with heterogeneous component types, the
generic static `VStack`/`HStack` impls, and the dynamic-content
`VStack`/`HStack` impls — two invocations on the same view and context
yield equal results; and a call, which receives view and context by shared
reference, leaves both unchanged in the caller's hands (non-mutation). -/
theorem static_extraction_deterministic
    {A1 A2 A3 A4 A5 A6 A7 A8 A9 A10 A11 A12 O1 O2 O3 O4 O5 O6 O7 O8 O9 O10 O11 O12 T OT : Type}
    (e1 : A1 → RenderContext → ExtractionResult O1)
    (e2 : A2 → RenderContext → ExtractionResult O2)
    (e3 : A3 → RenderContext → ExtractionResult O3)
    (e4 : A4 → RenderContext → ExtractionResult O4)
    (e5 : A5 → RenderContext → ExtractionResult O5)
    (e6 : A6 → RenderContext → ExtractionResult O6)
    (e7 : A7 → RenderContext → ExtractionResult O7)
    (e8 : A8 → RenderContext → ExtractionResult O8)
    (e9 : A9 → RenderContext → ExtractionResult O9)
    (e10 : A10 → RenderContext → ExtractionResult O10)
    (e11 : A11 → RenderContext → ExtractionResult O11)
    (e12 : A12 → RenderContext → ExtractionResult O12)
    (eT : T → RenderContext → ExtractionResult OT)
    (t : Text) (b : ButtonView) (s : Spacer) (ov : Option A1)
    (vs : VStack T) (hs : HStack T)
    (vd : VStack (List DynView)) (hd : HStack (List DynView))
    (v1 : A1) (v2 : A2) (v3 : A3) (v4 : A4) (v5 : A5) (v6 : A6) (v7 : A7) (v8 : A8) (v9 : A9) (v10 : A10) (v11 : A11) (v12 : A12)
    (ctx : RenderContext) :
    (∀ r1 r2 : ExtractionResult (MockText),
      r1 = MockBackend.extractText t ctx →
      r2 = MockBackend.extractText t ctx → r1 = r2) ∧
    (∀ r1 r2 : ExtractionResult (MockButton),
      r1 = MockBackend.extractButton b ctx →
      r2 = MockBackend.extractButton b ctx → r1 = r2) ∧
    (∀ r1 r2 : ExtractionResult (MockSpacer),
      r1 = MockBackend.extractSpacer s ctx →
      r2 = MockBackend.extractSpacer s ctx → r1 = r2) ∧
    (∀ r1 r2 : ExtractionResult (Option O1),
      r1 = MockBackend.extractOption e1 ov ctx →
      r2 = MockBackend.extractOption e1 ov ctx → r1 = r2) ∧
    (∀ r1 r2 : ExtractionResult (O1 × O2),
      r1 = MockBackend.extractTuple2 e1 e2 (v1, v2) ctx →
      r2 = MockBackend.extractTuple2 e1 e2 (v1, v2) ctx → r1 = r2) ∧
    (∀ r1 r2 : ExtractionResult (O1 × O2 × O3),
      r1 = MockBackend.extractTuple3 e1 e2 e3 (v1, v2, v3) ctx →
      r2 = MockBackend.extractTuple3 e1 e2 e3 (v1, v2, v3) ctx → r1 = r2) ∧
    (∀ r1 r2 : ExtractionResult (O1 × O2 × O3 × O4),
      r1 = MockBackend.extractTuple4 e1 e2 e3 e4 (v1, v2, v3, v4) ctx →
      r2 = MockBackend.extractTuple4 e1 e2 e3 e4 (v1, v2, v3, v4) ctx → r1 = r2) ∧
    (∀ r1 r2 : ExtractionResult (O1 × O2 × O3 × O4 × O5),
      r1 = MockBackend.extractTuple5 e1 e2 e3 e4 e5 (v1, v2, v3, v4, v5) ctx →
      r2 = MockBackend.extractTuple5 e1 e2 e3 e4 e5 (v1, v2, v3, v4, v5) ctx → r1 = r2) ∧
    (∀ r1 r2 : ExtractionResult (O1 × O2 × O3 × O4 × O5 × O6),
      r1 = MockBackend.extractTuple6 e1 e2 e3 e4 e5 e6 (v1, v2, v3, v4, v5, v6) ctx →
      r2 = MockBackend.extractTuple6 e1 e2 e3 e4 e5 e6 (v1, v2, v3, v4, v5, v6) ctx → r1 = r2) ∧
    (∀ r1 r2 : ExtractionResult (O1 × O2 × O3 × O4 × O5 × O6 × O7),
      r1 = MockBackend.extractTuple7 e1 e2 e3 e4 e5 e6 e7 (v1, v2, v3, v4, v5, v6, v7) ctx →
      r2 = MockBackend.extractTuple7 e1 e2 e3 e4 e5 e6 e7 (v1, v2, v3, v4, v5, v6, v7) ctx → r1 = r2) ∧
    (∀ r1 r2 : ExtractionResult (O1 × O2 × O3 × O4 × O5 × O6 × O7 × O8),
      r1 = MockBackend.extractTuple8 e1 e2 e3 e4 e5 e6 e7 e8 (v1, v2, v3, v4, v5, v6, v7, v8) ctx →
      r2 = MockBackend.extractTuple8 e1 e2 e3 e4 e5 e6 e7 e8 (v1, v2, v3, v4, v5, v6, v7, v8) ctx → r1 = r2) ∧
    (∀ r1 r2 : ExtractionResult (O1 × O2 × O3 × O4 × O5 × O6 × O7 × O8 × O9),
      r1 = MockBackend.extractTuple9 e1 e2 e3 e4 e5 e6 e7 e8 e9 (v1, v2, v3, v4, v5, v6, v7, v8, v9) ctx →
      r2 = MockBackend.extractTuple9 e1 e2 e3 e4 e5 e6 e7 e8 e9 (v1, v2, v3, v4, v5, v6, v7, v8, v9) ctx → r1 = r2) ∧
    (∀ r1 r2 : ExtractionResult (O1 × O2 × O3 × O4 × O5 × O6 × O7 × O8 × O9 × O10),
      r1 = MockBackend.extractTuple10 e1 e2 e3 e4 e5 e6 e7 e8 e9 e10 (v1, v2, v3, v4, v5, v6, v7, v8, v9, v10) ctx →
      r2 = MockBackend.extractTuple10 e1 e2 e3 e4 e5 e6 e7 e8 e9 e10 (v1, v2, v3, v4, v5, v6, v7, v8, v9, v10) ctx → r1 = r2) ∧
    (∀ r1 r2 : ExtractionResult (O1 × O2 × O3 × O4 × O5 × O6 × O7 × O8 × O9 × O10 × O11),
      r1 = MockBackend.extractTuple11 e1 e2 e3 e4 e5 e6 e7 e8 e9 e10 e11 (v1, v2, v3, v4, v5, v6, v7, v8, v9, v10, v11) ctx →
      r2 = MockBackend.extractTuple11 e1 e2 e3 e4 e5 e6 e7 e8 e9 e10 e11 (v1, v2, v3, v4, v5, v6, v7, v8, v9, v10, v11) ctx → r1 = r2) ∧
    (∀ r1 r2 : ExtractionResult (O1 × O2 × O3 × O4 × O5 × O6 × O7 × O8 × O9 × O10 × O11 × O12),
      r1 = MockBackend.extractTuple12 e1 e2 e3 e4 e5 e6 e7 e8 e9 e10 e11 e12 (v1, v2, v3, v4, v5, v6, v7, v8, v9, v10, v11, v12) ctx →
      r2 = MockBackend.extractTuple12 e1 e2 e3 e4 e5 e6 e7 e8 e9 e10 e11 e12 (v1, v2, v3, v4, v5, v6, v7, v8, v9, v10, v11, v12) ctx → r1 = r2) ∧
    (∀ r1 r2 : ExtractionResult (MockVStack OT),
      r1 = MockBackend.extractVStack eT vs ctx →
      r2 = MockBackend.extractVStack eT vs ctx → r1 = r2) ∧
    (∀ r1 r2 : ExtractionResult (MockHStack OT),
      r1 = MockBackend.extractHStack eT hs ctx →
      r2 = MockBackend.extractHStack eT hs ctx → r1 = r2) ∧
    (∀ r1 r2 : ExtractionResult (MockVStack (List MockDynamicChild)),
      r1 = MockBackend.extractVStackDyn vd ctx →
      r2 = MockBackend.extractVStackDyn vd ctx → r1 = r2) ∧
    (∀ r1 r2 : ExtractionResult (MockHStack (List MockDynamicChild)),
      r1 = MockBackend.extractHStackDyn hd ctx →
      r2 = MockBackend.extractHStackDyn hd ctx → r1 = r2) ∧
    (∀ {V O : Type} (f : V → RenderContext → ExtractionResult O) (x : V),
      (extractCall f x ctx).1 = f x ctx ∧
      (extractCall f x ctx).2.1 = x ∧ (extractCall f x ctx).2.2 = ctx) := by
  exact ⟨fun r1 r2 h1 h2 => h1.trans h2.symm,
    fun r1 r2 h1 h2 => h1.trans h2.symm,
    fun r1 r2 h1 h2 => h1.trans h2.symm,
    fun r1 r2 h1 h2 => h1.trans h2.symm,
    fun r1 r2 h1 h2 => h1.trans h2.symm,
    fun r1 r2 h1 h2 => h1.trans h2.symm,
    fun r1 r2 h1 h2 => h1.trans h2.symm,
    fun r1 r2 h1 h2 => h1.trans h2.symm,
    fun r1 r2 h1 h2 => h1.trans h2.symm,
    fun r1 r2 h1 h2 => h1.trans h2.symm,
    fun r1 r2 h1 h2 => h1.trans h2.symm,
    fun r1 r2 h1 h2 => h1.trans h2.symm,
    fun r1 r2 h1 h2 => h1.trans h2.symm,
    fun r1 r2 h1 h2 => h1.trans h2.symm,
    fun r1 r2 h1 h2 => h1.trans h2.symm,
    fun r1 r2 h1 h2 => h1.trans h2.symm,
    fun r1 r2 h1 h2 => h1.trans h2.symm,
    fun r1 r2 h1 h2 => h1.trans h2.symm,
    fun r1 r2 h1 h2 => h1.trans h2.symm,
    fun f x => ⟨rfl, rfl, rfl⟩⟩

/-- Witness for C8: every covered extractor evaluated twice at a concrete
input gives the same result, and a concrete call leaves the borrowed view
unchanged. -/
theorem static_extraction_deterministic_witness :
    MockBackend.extractText (Text.new "Hello") RenderContext.new =
      MockBackend.extractText (Text.new "Hello") RenderContext.new ∧
    MockBackend.extractButton ⟨Text.new "B", Color.BLACK, ⟨0⟩⟩ RenderContext.new =
      MockBackend.extractButton ⟨Text.new "B", Color.BLACK, ⟨0⟩⟩ RenderContext.new ∧
    MockBackend.extractSpacer ⟨F32.zero⟩ RenderContext.new =
      MockBackend.extractSpacer ⟨F32.zero⟩ RenderContext.new ∧
    MockBackend.extractOption MockBackend.extractText (some (Text.new "O")) RenderContext.new =
      MockBackend.extractOption MockBackend.extractText (some (Text.new "O")) RenderContext.new ∧
    MockBackend.extractTuple2 MockBackend.extractText MockBackend.extractText (Text.new "1", Text.new "2") RenderContext.new =
      MockBackend.extractTuple2 MockBackend.extractText MockBackend.extractText (Text.new "1", Text.new "2") RenderContext.new ∧
    MockBackend.extractTuple3 MockBackend.extractText MockBackend.extractText MockBackend.extractText (Text.new "1", Text.new "2", Text.new "3") RenderContext.new =
      MockBackend.extractTuple3 MockBackend.extractText MockBackend.extractText MockBackend.extractText (Text.new "1", Text.new "2", Text.new "3") RenderContext.new ∧
    MockBackend.extractTuple4 MockBackend.extractText MockBackend.extractText MockBackend.extractText MockBackend.extractText (Text.new "1", Text.new "2", Text.new "3", Text.new "4") RenderContext.new =
      MockBackend.extractTuple4 MockBackend.extractText MockBackend.extractText MockBackend.extractText MockBackend.extractText (Text.new "1", Text.new "2", Text.new "3", Text.new "4") RenderContext.new ∧
    MockBackend.extractTuple5 MockBackend.extractText MockBackend.extractText MockBackend.extractText MockBackend.extractText MockBackend.extractText (Text.new "1", Text.new "2", Text.new "3", Text.new "4", Text.new "5") RenderContext.new =
      MockBackend.extractTuple5 MockBackend.extractText MockBackend.extractText MockBackend.extractText MockBackend.extractText MockBackend.extractText (Text.new "1", Text.new "2", Text.new "3", Text.new "4", Text.new "5") RenderContext.new ∧
    MockBackend.extractTuple6 MockBackend.extractText MockBackend.extractText MockBackend.extractText MockBackend.extractText MockBackend.extractText MockBackend.extractText (Text.new "1", Text.new "2", Text.new "3", Text.new "4", Text.new "5", Text.new "6") RenderContext.new =
      MockBackend.extractTuple6 MockBackend.extractText MockBackend.extractText MockBackend.extractText MockBackend.extractText MockBackend.extractText MockBackend.extractText (Text.new "1", Text.new "2", Text.new "3", Text.new "4", Text.new "5", Text.new "6") RenderContext.new ∧
    MockBackend.extractTuple7 MockBackend.extractText MockBackend.extractText MockBackend.extractText MockBackend.extractText MockBackend.extractText MockBackend.extractText MockBackend.extractText (Text.new "1", Text.new "2", Text.new "3", Text.new "4", Text.new "5", Text.new "6", Text.new "7") RenderContext.new =
      MockBackend.extractTuple7 MockBackend.extractText MockBackend.extractText MockBackend.extractText MockBackend.extractText MockBackend.extractText MockBackend.extractText MockBackend.extractText (Text.new "1", Text.new "2", Text.new "3", Text.new "4", Text.new "5", Text.new "6", Text.new "7") RenderContext.new ∧
    MockBackend.extractTuple8 MockBackend.extractText MockBackend.extractText MockBackend.extractText MockBackend.extractText MockBackend.extractText MockBackend.extractText MockBackend.extractText MockBackend.extractText (Text.new "1", Text.new "2", Text.new "3", Text.new "4", Text.new "5", Text.new "6", Text.new "7", Text.new "8") RenderContext.new =
      MockBackend.extractTuple8 MockBackend.extractText MockBackend.extractText MockBackend.extractText MockBackend.extractText MockBackend.extractText MockBackend.extractText MockBackend.extractText MockBackend.extractText (Text.new "1", Text.new "2", Text.new "3", Text.new "4", Text.new "5", Text.new "6", Text.new "7", Text.new "8") RenderContext.new ∧
    MockBackend.extractTuple9 MockBackend.extractText MockBackend.extractText MockBackend.extractText MockBackend.extractText MockBackend.extractText MockBackend.extractText MockBackend.extractText MockBackend.extractText MockBackend.extractText (Text.new "1", Text.new "2", Text.new "3", Text.new "4", Text.new "5", Text.new "6", Text.new "7", Text.new "8", Text.new "9") RenderContext.new =
      MockBackend.extractTuple9 MockBackend.extractText MockBackend.extractText MockBackend.extractText MockBackend.extractText MockBackend.extractText MockBackend.extractText MockBackend.extractText MockBackend.extractText MockBackend.extractText (Text.new "1", Text.new "2", Text.new "3", Text.new "4", Text.new "5", Text.new "6", Text.new "7", Text.new "8", Text.new "9") RenderContext.new ∧
    MockBackend.extractTuple10 MockBackend.extractText MockBackend.extractText MockBackend.extractText MockBackend.extractText MockBackend.extractText MockBackend.extractText MockBackend.extractText MockBackend.extractText MockBackend.extractText MockBackend.extractText (Text.new "1", Text.new "2", Text.new "3", Text.new "4", Text.new "5", Text.new "6", Text.new "7", Text.new "8", Text.new "9", Text.new "10") RenderContext.new =
      MockBackend.extractTuple10 MockBackend.extractText MockBackend.extractText MockBackend.extractText MockBackend.extractText MockBackend.extractText MockBackend.extractText MockBackend.extractText MockBackend.extractText MockBackend.extractText MockBackend.extractText (Text.new "1", Text.new "2", Text.new "3", Text.new "4", Text.new "5", Text.new "6", Text.new "7", Text.new "8", Text.new "9", Text.new "10") RenderContext.new ∧
    MockBackend.extractTuple11 MockBackend.extractText MockBackend.extractText MockBackend.extractText MockBackend.extractText MockBackend.extractText MockBackend.extractText MockBackend.extractText MockBackend.extractText MockBackend.extractText MockBackend.extractText MockBackend.extractText (Text.new "1", Text.new "2", Text.new "3", Text.new "4", Text.new "5", Text.new "6", Text.new "7", Text.new "8", Text.new "9", Text.new "10", Text.new "11") RenderContext.new =
      MockBackend.extractTuple11 MockBackend.extractText MockBackend.extractText MockBackend.extractText MockBackend.extractText MockBackend.extractText MockBackend.extractText MockBackend.extractText MockBackend.extractText MockBackend.extractText MockBackend.extractText MockBackend.extractText (Text.new "1", Text.new "2", Text.new "3", Text.new "4", Text.new "5", Text.new "6", Text.new "7", Text.new "8", Text.new "9", Text.new "10", Text.new "11") RenderContext.new ∧
    MockBackend.extractTuple12 MockBackend.extractText MockBackend.extractText MockBackend.extractText MockBackend.extractText MockBackend.extractText MockBackend.extractText MockBackend.extractText MockBackend.extractText MockBackend.extractText MockBackend.extractText MockBackend.extractText MockBackend.extractText (Text.new "1", Text.new "2", Text.new "3", Text.new "4", Text.new "5", Text.new "6", Text.new "7", Text.new "8", Text.new "9", Text.new "10", Text.new "11", Text.new "12") RenderContext.new =
      MockBackend.extractTuple12 MockBackend.extractText MockBackend.extractText MockBackend.extractText MockBackend.extractText MockBackend.extractText MockBackend.extractText MockBackend.extractText MockBackend.extractText MockBackend.extractText MockBackend.extractText MockBackend.extractText MockBackend.extractText (Text.new "1", Text.new "2", Text.new "3", Text.new "4", Text.new "5", Text.new "6", Text.new "7", Text.new "8", Text.new "9", Text.new "10", Text.new "11", Text.new "12") RenderContext.new ∧
    MockBackend.extractVStack MockBackend.extractText ⟨Text.new "V", .Leading, F32.zero⟩ RenderContext.new =
      MockBackend.extractVStack MockBackend.extractText ⟨Text.new "V", .Leading, F32.zero⟩ RenderContext.new ∧
    MockBackend.extractHStack MockBackend.extractText ⟨Text.new "H", .Leading, F32.zero⟩ RenderContext.new =
      MockBackend.extractHStack MockBackend.extractText ⟨Text.new "H", .Leading, F32.zero⟩ RenderContext.new ∧
    MockBackend.extractVStackDyn ⟨[DynView.text (Text.new "D")], .Leading, F32.zero⟩ RenderContext.new =
      MockBackend.extractVStackDyn ⟨[DynView.text (Text.new "D")], .Leading, F32.zero⟩ RenderContext.new ∧
    MockBackend.extractHStackDyn ⟨[DynView.text (Text.new "D")], .Leading, F32.zero⟩ RenderContext.new =
      MockBackend.extractHStackDyn ⟨[DynView.text (Text.new "D")], .Leading, F32.zero⟩ RenderContext.new ∧
    (extractCall MockBackend.extractText (Text.new "Hello")
      RenderContext.new).2.1 = Text.new "Hello" := by
  have h := static_extraction_deterministic
    MockBackend.extractText MockBackend.extractText MockBackend.extractText
    MockBackend.extractText MockBackend.extractText MockBackend.extractText
    MockBackend.extractText MockBackend.extractText MockBackend.extractText
    MockBackend.extractText MockBackend.extractText MockBackend.extractText
    MockBackend.extractText
    (Text.new "Hello") ⟨Text.new "B", Color.BLACK, ⟨0⟩⟩ ⟨F32.zero⟩
    (some (Text.new "O"))
    ⟨Text.new "V", .Leading, F32.zero⟩ ⟨Text.new "H", .Leading, F32.zero⟩
    ⟨[DynView.text (Text.new "D")], .Leading, F32.zero⟩
    ⟨[DynView.text (Text.new "D")], .Leading, F32.zero⟩
    (Text.new "1") (Text.new "2") (Text.new "3") (Text.new "4") (Text.new "5") (Text.new "6") (Text.new "7") (Text.new "8") (Text.new "9") (Text.new "10") (Text.new "11") (Text.new "12")
    RenderContext.new
  exact ⟨h.1 _ _ rfl rfl,
    h.2.1 _ _ rfl rfl,
    h.2.2.1 _ _ rfl rfl,
    h.2.2.2.1 _ _ rfl rfl,
    h.2.2.2.2.1 _ _ rfl rfl,
    h.2.2.2.2.2.1 _ _ rfl rfl,
    h.2.2.2.2.2.2.1 _ _ rfl rfl,
    h.2.2.2.2.2.2.2.1 _ _ rfl rfl,
    h.2.2.2.2.2.2.2.2.1 _ _ rfl rfl,
    h.2.2.2.2.2.2.2.2.2.1 _ _ rfl rfl,
    h.2.2.2.2.2.2.2.2.2.2.1 _ _ rfl rfl,
    h.2.2.2.2.2.2.2.2.2.2.2.1 _ _ rfl rfl,
    h.2.2.2.2.2.2.2.2.2.2.2.2.1 _ _ rfl rfl,
    h.2.2.2.2.2.2.2.2.2.2.2.2.2.1 _ _ rfl rfl,
    h.2.2.2.2.2.2.2.2.2.2.2.2.2.2.1 _ _ rfl rfl,
    h.2.2.2.2.2.2.2.2.2.2.2.2.2.2.2.1 _ _ rfl rfl,
    h.2.2.2.2.2.2.2.2.2.2.2.2.2.2.2.2.1 _ _ rfl rfl,
    h.2.2.2.2.2.2.2.2.2.2.2.2.2.2.2.2.2.1 _ _ rfl rfl,
    h.2.2.2.2.2.2.2.2.2.2.2.2.2.2.2.2.2.2.1 _ _ rfl rfl,
    (h.2.2.2.2.2.2.2.2.2.2.2.2.2.2.2.2.2.2.2 MockBackend.extractText (Text.new "Hello")).2.1⟩

end Ironwood
